import Mathlib

/-!
# uDesktopDuplication: cursor decoding and the capture tick

A shallow embedding of `Plugins/uDesktopDuplication/uDesktopDuplication/main.cpp`.

* `UINT` / `int` values are naturals / integers, reduced modulo `2^32` after every
  arithmetic operation the source performs on them (`toUINT`, `toINT`).
* A byte buffer (`BYTE*` plus the number of bytes behind it) is a `List Nat`.
  Reading or writing outside the list is undefined behaviour in the source and is
  a fault (`none`) here.  `reinterpret_cast<UINT*>` views are little-endian words.
* Calls into DXGI / Direct3D are answered by an explicit environment record and
  logged in a trace of events, in program order.
-/

namespace UDD

/-! ## Machine integers and memory -/

/-- Reduction of an arithmetic result to `UINT` (32-bit unsigned). -/
def toUINT (n : Nat) : Nat := n % 4294967296

/-- Conversion of a 32-bit pattern to `int` (32-bit two's complement). -/
def toINT (n : Nat) : Int :=
  if n % 4294967296 < 2147483648 then ((n % 4294967296 : Nat) : Int)
  else ((n % 4294967296 : Nat) : Int) - 4294967296

/-- A `BYTE` array of known extent. -/
abbrev Buffer := List Nat

/-- Every cell of the buffer holds a byte value. -/
def isBytes (b : Buffer) : Prop := ∀ x ∈ b, x < 256

/-- Read of `buf[k]` through a `BYTE*`, `k` unsigned. -/
def readByte (b : Buffer) (k : Nat) : Option Nat := b[k]?

/-- Read of `buf32[j]` through a `UINT*` view of the bytes, `j` signed. -/
def readUINT (b : Buffer) (j : Int) : Option Nat :=
  if j < 0 then none
  else
    match b[4 * j.toNat]?, b[4 * j.toNat + 1]?, b[4 * j.toNat + 2]?, b[4 * j.toNat + 3]? with
    | some b0, some b1, some b2, some b3 => some (b0 + 256 * b1 + 65536 * b2 + 16777216 * b3)
    | _, _, _, _ => none

/-- Write of `buf32[i] = v` through a `UINT*` view of the bytes, `i` signed. -/
def writeUINT (b : Buffer) (i : Int) (v : Nat) : Option Buffer :=
  if i < 0 then none
  else if 4 * i.toNat + 3 < b.length then
    some ((((b.set (4 * i.toNat) (v % 256)).set (4 * i.toNat + 1) (v / 256 % 256)).set
      (4 * i.toNat + 2) (v / 65536 % 256)).set (4 * i.toNat + 3) (v / 16777216 % 256))
  else none

/-- The loop `for (UINT i = 0; i < n; ++i) body`, threading the mutable state. -/
def forRange {σ : Type} (n : Nat) (body : Nat → σ → Option σ) (s : σ) : Option σ :=
  (List.range n).foldlM (fun st i => body i st) s

/-! ## The three decode loops of `UpdateMouse` (lines 228-284) -/

/-- Body of the inner monochrome loop (lines 235-241); the state is `(mask, output)`. -/
def monoPixel (w h p desktopPitch : Nat) (apiBuffer desktop32 : Buffer) (row col : Nat)
    (st : Nat × Buffer) : Option (Nat × Buffer) := do
  let mask := st.1
  let i : Int := toINT (toUINT (toUINT (row * w) + col))
  let a ← readByte apiBuffer (toUINT (col / 8 + toUINT (row * p)))
  let x ← readByte apiBuffer (toUINT (col / 8 + toUINT (toUINT (row + h) * p)))
  let andMask := a &&& mask
  let xorMask := x &&& mask
  let andMask32 := if andMask ≠ 0 then 0xFFFFFFFF else 0xFF000000
  let xorMask32 := if xorMask ≠ 0 then 0x00FFFFFF else 0x00000000
  let d ← readUINT desktop32 ((toUINT (toUINT (row * desktopPitch) + col) : Nat) : Int)
  let out ← writeUINT st.2 i ((d &&& andMask32) ^^^ xorMask32)
  pure (if mask = 0x01 then 0x80 else mask >>> 1, out)

/-- One row of the monochrome loop (lines 232-242): the mask restarts at `0x80`. -/
def monoRow (w h p desktopPitch : Nat) (apiBuffer desktop32 : Buffer) (row : Nat)
    (out : Buffer) : Option Buffer :=
  (forRange w (monoPixel w h p desktopPitch apiBuffer desktop32 row) (0x80, out)).map Prod.snd

/-- The monochrome branch (lines 228-244). -/
def decodeMonochrome (w h p desktopPitch : Nat) (apiBuffer desktop32 output32 : Buffer) :
    Option Buffer :=
  forRange h (monoRow w h p desktopPitch apiBuffer desktop32) output32

/-- The index `j` of line 254: `row * p` is a `UINT` product, the division by
`sizeof(UINT)` and the addition are done in `size_t`, the result is stored in an `int`. -/
def maskedIndex (p row col : Nat) : Int := toINT (toUINT (row * p) / 4 + col)

/-- Body of the inner masked-colour loop (lines 253-264). -/
def maskedPixel (w p desktopPitch : Nat) (apiBuffer desktop32 : Buffer) (row col : Nat)
    (out : Buffer) : Option Buffer := do
  let i : Int := toINT (toUINT (toUINT (row * w) + col))
  let j : Int := maskedIndex p row col
  let raw ← readUINT apiBuffer j
  let mask := 0xFF000000 &&& raw
  if mask ≠ 0 then
    let d ← readUINT desktop32 ((toUINT (toUINT (row * desktopPitch) + col) : Nat) : Int)
    writeUINT out i ((d ^^^ raw) ||| 0xFF000000)
  else
    writeUINT out i (raw ||| 0xFF000000)

/-- The masked-colour branch (lines 245-267). -/
def decodeMaskedColor (w h p desktopPitch : Nat) (apiBuffer desktop32 output32 : Buffer) :
    Option Buffer :=
  forRange h (fun row out => forRange w (maskedPixel w p desktopPitch apiBuffer desktop32 row) out)
    output32

/-- Body of the colour loop (line 282). -/
def colorPixel (apiBuffer : Buffer) (i : Nat) (out : Buffer) : Option Buffer := do
  let v ← readUINT apiBuffer (i : Int)
  writeUINT out (i : Int) v

/-- The colour branch (lines 276-284); the bound `w * h` is a `UINT` product. -/
def decodeColor (w h : Nat) (apiBuffer output32 : Buffer) : Option Buffer :=
  forRange (toUINT (w * h)) (colorPixel apiBuffer) output32

/-! ## Data model (lines 15-42) -/

def DXGI_OUTDUPL_POINTER_SHAPE_TYPE_MONOCHROME : Nat := 1
def DXGI_OUTDUPL_POINTER_SHAPE_TYPE_COLOR : Nat := 2
def DXGI_OUTDUPL_POINTER_SHAPE_TYPE_MASKED_COLOR : Nat := 4

/-- The value `0x887A0026` as a (signed) `HRESULT`. -/
def DXGI_ERROR_ACCESS_LOST : Int := -2005270490
/-- The value `0x887A0027` as a (signed) `HRESULT`. -/
def DXGI_ERROR_WAIT_TIMEOUT : Int := -2005270489

/-- The macro `FAILED(hr)`. -/
def FAILED (hr : Int) : Bool := decide (hr < 0)

/-- The fields of `DXGI_OUTDUPL_POINTER_SHAPE_INFO` the program reads (all `UINT`). -/
structure DXGI_OUTDUPL_POINTER_SHAPE_INFO where
  Type_ : Nat
  Width : Nat
  Height : Nat
  Pitch : Nat
  deriving DecidableEq, Repr

/-- The fields of `MONITORINFOEX` the program reads. -/
structure MONITORINFOEX where
  left : Int
  top : Int
  right : Int
  bottom : Int
  dwFlags : Nat
  szDevice : String
  deriving DecidableEq, Repr

/-- `Monitor::Pointer`.  A buffer pointer is `none` when null, else the bytes behind it. -/
structure Pointer where
  isVisible : Bool
  x : Int
  y : Int
  apiBuffer : Option Buffer
  apiBufferSize : Nat
  bgra32Buffer : Option Buffer
  bgra32BufferSize : Nat
  shapeInfo : DXGI_OUTDUPL_POINTER_SHAPE_INFO
  deriving DecidableEq, Repr

/-- `Monitor`.  Interface pointers are `none` when null, else the identity of the object. -/
structure Monitor where
  id : Int
  deskDupl : Option Nat
  texture : Option Nat
  outputDesc : Nat
  monitorInfo : MONITORINFOEX
  pointer : Pointer
  deriving DecidableEq, Repr

/-- The globals of the anonymous namespace (lines 37-42). -/
structure Globals where
  g_unity : Option Nat
  g_mouseMonitor : Int
  g_timeout : Int
  g_errorCode : Int
  g_errorMessage : String
  g_monitors : List Monitor
  deriving DecidableEq, Repr

/-! ## The environment: answers of DXGI / Direct3D, and the calls made to them -/

/-- The fields of `DXGI_OUTDUPL_FRAME_INFO` the program reads. -/
structure DXGI_OUTDUPL_FRAME_INFO where
  Visible : Bool
  x : Int
  y : Int
  PointerShapeBufferSize : Nat

/-- What one `EnumOutputs` hit yields: `GetDesc`, `GetMonitorInfo`, the session
`DuplicateOutput` stores (null when it fails), and the indeterminate initial value of the
`shapeInfo` member, which has no initialiser. -/
structure OutputReply where
  outputDesc : Nat
  monitorInfo : MONITORINFOEX
  DuplicateOutput : Option Nat
  shapeInfo : DXGI_OUTDUPL_POINTER_SHAPE_INFO

/-- Answers of the operating system during one exported call. -/
structure Env where
  /-- The `HRESULT` of `AcquireNextFrame`. -/
  AcquireNextFrame : Int
  frameInfo : DXGI_OUTDUPL_FRAME_INFO
  /-- The payload and descriptor `GetFramePointerShape` stores; `none` when it stores nothing. -/
  GetFramePointerShape : Option (Buffer × DXGI_OUTDUPL_POINTER_SHAPE_INFO)
  CreateTexture2D : Int
  QueryInterface : Int
  Map : Int
  /-- The bytes behind `mappedSurface.pBits`. -/
  pBits : Buffer
  /-- The value `mappedSurface.Pitch` (an `INT`). -/
  Pitch : Int
  Unmap : Int
  /-- Contents of freshly allocated memory. -/
  uninit : Nat → Nat
  /-- The outputs of every adapter, in enumeration order. -/
  adapters : List (List OutputReply)

/-- Calls on external objects, in program order. -/
inductive Event where
  | AcquireNextFrame (dupl : Nat) (timeout : Int) (hr : Int)
  /-- A request of `size` bytes into a buffer of `capacity` bytes. -/
  | GetFramePointerShape (dupl : Nat) (size : Nat) (capacity : Nat)
  | ReleaseFrame (dupl : Nat)
  | Release (dupl : Nat)
  | DuplicateOutput (result : Option Nat)
  | CopyResource (dst : Nat)
  | ResourceRelease
  | CreateTexture2D (w h : Nat) (hr : Int)
  | QueryInterface (hr : Int)
  | CopySubresourceRegion (src : Option Nat)
  | TextureRelease
  | Map (hr : Int)
  | Unmap (hr : Int)
  | SurfaceRelease
  deriving DecidableEq, Repr

/-- The expression `new BYTE[n]`: `n` bytes of indeterminate content. -/
def newBYTE (env : Env) (n : Nat) : Buffer := (List.range n).map (fun k => env.uninit k % 256)

/-- Conversion of an `INT` to `size_t` (64-bit target). -/
def toSIZE_T (x : Int) : Nat := (x % 18446744073709551616).toNat

/-- The store `GetFramePointerShape` makes into a buffer on a request of `size` bytes. -/
def storePayload (size : Nat) (payload buf : Buffer) : Buffer :=
  payload.take size ++ buf.drop (payload.take size).length

/-! ## Operations -/

/-- The result of a call: the external calls made, and the value it returns, or `none`
when it faults on the way (null dereference, access outside a buffer). -/
abbrev Run (α : Type) := List Event × Option α

/-- The loop of `FinalizeDuplication` (lines 50-53): `Release` through every session pointer.
The flag tells whether the loop ran to its end. -/
def releaseSessions : List Monitor → List Event × Bool
  | [] => ([], true)
  | monitor :: rest =>
    match monitor.deskDupl with
    | none => ([], false)
    | some d => ((Event.Release d) :: (releaseSessions rest).1, (releaseSessions rest).2)

/-- The function `FinalizeDuplication` (lines 48-55). -/
def FinalizeDuplication (g : Globals) : Run Globals :=
  ((releaseSessions g.g_monitors).1,
    if (releaseSessions g.g_monitors).2 then some { g with g_monitors := [] } else none)

/-- The value of a default-constructed `Monitor` after lines 74-82 for one output. -/
def newMonitor (id : Int) (o : OutputReply) : Monitor :=
  { id := id, deskDupl := o.DuplicateOutput, texture := none, outputDesc := o.outputDesc,
    monitorInfo := o.monitorInfo,
    pointer := { isVisible := false, x := -1, y := -1, apiBuffer := none, apiBufferSize := 0,
                 bgra32Buffer := none, bgra32BufferSize := 0, shapeInfo := o.shapeInfo } }

/-- The two enumeration loops (lines 65-89) over the flattened outputs: the state is
`(id, g_monitors)`. -/
def enumerate : List OutputReply → Int → List Monitor → Int × List Monitor
  | [], id, ms => (id, ms)
  | o :: rest, id, ms => enumerate rest (id + 1) (ms ++ [newMonitor id o])

/-- The function `InitializeDuplication` (lines 57-92). -/
def InitializeDuplication (env : Env) (g : Globals) : Run Globals :=
  match FinalizeDuplication g with
  | (tr, none) => (tr, none)
  | (tr, some g1) =>
    match env.adapters.flatten, g1.g_unity with
    | [], _ => (tr, some g1)
    | _ :: _, none => (tr, none)
    | o :: rest, some _ =>
      (tr ++ (o :: rest).map (fun r => Event.DuplicateOutput r.DuplicateOutput),
        some { g1 with g_monitors := (enumerate (o :: rest) 0 g1.g_monitors).2 })

/-- The function `UnityPluginLoad` (lines 94-98). -/
def UnityPluginLoad (env : Env) (g : Globals) (unityInterfaces : Option Nat) : Run Globals :=
  InitializeDuplication env { g with g_unity := unityInterfaces }

/-- The function `UnityPluginUnload` (lines 100-104). -/
def UnityPluginUnload (g : Globals) : Run Globals :=
  FinalizeDuplication { g with g_unity := none }

/-- The function `IsValidMonitorId` (lines 106-109). -/
def IsValidMonitorId (g : Globals) (id : Int) : Bool :=
  decide (0 ≤ id) && decide (id.toNat < g.g_monitors.length)

/-- Lines 142-150 of `UpdateMouse`: the shape payload is fetched into `apiBuffer` when the
frame announces one.  The result is the content of `apiBuffer` and `shapeInfo` after. -/
def fetchShape (env : Env) (frameInfo : DXGI_OUTDUPL_FRAME_INFO) (monitor : Monitor)
    (pointer : Pointer) (apiBuffer : Buffer) : Run (Buffer × DXGI_OUTDUPL_POINTER_SHAPE_INFO) :=
  if frameInfo.PointerShapeBufferSize ≠ 0 then
    match monitor.deskDupl with
    | none => ([], none)
    | some d =>
      ([Event.GetFramePointerShape d frameInfo.PointerShapeBufferSize apiBuffer.length],
        match env.GetFramePointerShape with
        | none => some (apiBuffer, pointer.shapeInfo)
        | some (payload, info) =>
          some (storePayload frameInfo.PointerShapeBufferSize payload apiBuffer, info))
  else ([], some (apiBuffer, pointer.shapeInfo))

/-- Lines 159-164 of `UpdateMouse`: the decoded buffer grows when the image needs more. -/
def growBgra32 (env : Env) (pointer : Pointer) (bgraBufferSize : Nat) : Pointer :=
  if bgraBufferSize > pointer.bgra32BufferSize then
    { pointer with bgra32Buffer := some (newBYTE env bgraBufferSize),
                   bgra32BufferSize := bgraBufferSize }
  else pointer

/-- Lines 168-275 of `UpdateMouse`: the desktop behind the pointer is read back through a
staging texture and merged with the mask. -/
def composite (env : Env) (g_unity : Option Nat) (monitor : Monitor) (pointer : Pointer)
    (isMono : Bool) (w h p : Nat) (apiBuffer output32 : Buffer) : Run (Bool × Pointer) :=
  match g_unity with
  | none => ([], none)
  | some _ =>
    if FAILED env.CreateTexture2D then
      ([Event.CreateTexture2D w h env.CreateTexture2D], some (false, pointer))
    else if FAILED env.QueryInterface then
      ([Event.CreateTexture2D w h env.CreateTexture2D,
        Event.CopySubresourceRegion monitor.texture, Event.QueryInterface env.QueryInterface,
        Event.TextureRelease], some (false, pointer))
    else if FAILED env.Map then
      ([Event.CreateTexture2D w h env.CreateTexture2D,
        Event.CopySubresourceRegion monitor.texture, Event.QueryInterface env.QueryInterface,
        Event.TextureRelease, Event.Map env.Map, Event.SurfaceRelease], some (false, pointer))
    else
      match (if isMono then
              decodeMonochrome w h p (toUINT (toSIZE_T env.Pitch / 4)) apiBuffer env.pBits output32
            else
              decodeMaskedColor w h p (toUINT (toSIZE_T env.Pitch / 4)) apiBuffer env.pBits
                output32) with
      | none =>
        ([Event.CreateTexture2D w h env.CreateTexture2D,
          Event.CopySubresourceRegion monitor.texture, Event.QueryInterface env.QueryInterface,
          Event.TextureRelease, Event.Map env.Map], none)
      | some out =>
        ([Event.CreateTexture2D w h env.CreateTexture2D,
          Event.CopySubresourceRegion monitor.texture, Event.QueryInterface env.QueryInterface,
          Event.TextureRelease, Event.Map env.Map, Event.Unmap env.Unmap, Event.SurfaceRelease],
          some (!FAILED env.Unmap, { pointer with bgra32Buffer := some out }))

/-- Lines 152-286 of `UpdateMouse`: sizes, growth of the decoded buffer, and the decode
selected by the flags `isMono` / `isColorMask`. -/
def decodeShape (env : Env) (g_unity : Option Nat) (monitor : Monitor) (pointer : Pointer)
    (isMono isColorMask : Bool) (apiBuffer : Buffer) : Run (Bool × Pointer) :=
  let w := pointer.shapeInfo.Width
  let h := pointer.shapeInfo.Height / (if isMono then 2 else 1)
  let p := pointer.shapeInfo.Pitch
  let bgraBufferSize := toUINT (toUINT (w * h) * 4)
  match (growBgra32 env pointer bgraBufferSize).bgra32Buffer with
  | none => ([], some (true, growBgra32 env pointer bgraBufferSize))
  | some output32 =>
    if isMono || isColorMask then
      composite env g_unity monitor (growBgra32 env pointer bgraBufferSize) isMono w h p
        apiBuffer output32
    else
      match decodeColor w h apiBuffer output32 with
      | none => ([], none)
      | some out =>
        ([], some (true, { growBgra32 env pointer bgraBufferSize with bgra32Buffer := some out }))

/-- Lines 113-116 of `UpdateMouse`: visibility and position are taken from the frame. -/
def movePointer (frameInfo : DXGI_OUTDUPL_FRAME_INFO) (pointer : Pointer) : Pointer :=
  { pointer with isVisible := frameInfo.Visible, x := frameInfo.x, y := frameInfo.y }

/-- Lines 133-138 of `UpdateMouse`: the raw buffer grows when the payload needs more. -/
def growApi (env : Env) (frameInfo : DXGI_OUTDUPL_FRAME_INFO) (pointer : Pointer) : Pointer :=
  if frameInfo.PointerShapeBufferSize > pointer.apiBufferSize then
    { pointer with apiBuffer := some (newBYTE env frameInfo.PointerShapeBufferSize),
                   apiBufferSize := frameInfo.PointerShapeBufferSize }
  else pointer

/-- Lines 123-126 of `UpdateMouse`: the value of `g_mouseMonitor` after the visibility
check. -/
def activeMonitor (pointer : Pointer) (monitor : Monitor) (g_mouseMonitor : Int) : Int :=
  if pointer.isVisible then monitor.id else g_mouseMonitor

/-- Lines 132-286 of `UpdateMouse`, which run on the active mouse display only: growth of
the raw buffer, retrieval of the shape, decode. -/
def refreshShape (env : Env) (g_unity : Option Nat) (frameInfo : DXGI_OUTDUPL_FRAME_INFO)
    (monitor : Monitor) (pointer : Pointer) (isMono isColorMask : Bool) : Run (Bool × Pointer) :=
  match (growApi env frameInfo pointer).apiBuffer with
  | none => ([], some (true, growApi env frameInfo pointer))
  | some apiBuffer =>
    match fetchShape env frameInfo monitor (growApi env frameInfo pointer) apiBuffer with
    | (tr, none) => (tr, none)
    | (tr, some (raw, info)) =>
      (tr ++ (decodeShape env g_unity monitor
          { growApi env frameInfo pointer with apiBuffer := some raw, shapeInfo := info }
          isMono isColorMask raw).1,
        (decodeShape env g_unity monitor
          { growApi env frameInfo pointer with apiBuffer := some raw, shapeInfo := info }
          isMono isColorMask raw).2)

/-- The function `UpdateMouse` (lines 111-287).  It returns its `bool`, the monitor it was
given by reference, and `g_mouseMonitor`.  The shape type is read (lines 119-121) before the
shape is retrieved (lines 142-150). -/
def UpdateMouse (env : Env) (g_unity : Option Nat) (g_mouseMonitor : Int)
    (frameInfo : DXGI_OUTDUPL_FRAME_INFO) (monitor : Monitor) : Run (Bool × Monitor × Int) :=
  let pointer := movePointer frameInfo monitor.pointer
  let pointerType := pointer.shapeInfo.Type_
  let isMono := pointerType == DXGI_OUTDUPL_POINTER_SHAPE_TYPE_MONOCHROME
  let isColorMask := pointerType == DXGI_OUTDUPL_POINTER_SHAPE_TYPE_MASKED_COLOR
  let mouseMonitor := activeMonitor pointer monitor g_mouseMonitor
  if mouseMonitor ≠ monitor.id then
    ([], some (true, { monitor with pointer := pointer }, mouseMonitor))
  else
    ((refreshShape env g_unity frameInfo monitor pointer isMono isColorMask).1,
      (refreshShape env g_unity frameInfo monitor pointer isMono isColorMask).2.map
        (fun r => (r.1, { monitor with pointer := r.2 }, mouseMonitor)))

/-- The function `OnRenderEvent` (lines 289-330). -/
def OnRenderEvent (env : Env) (g : Globals) (id : Int) : Run Globals :=
  if !IsValidMonitorId g id then ([], some g)
  else
    match g.g_monitors[id.toNat]? with
    | none => ([], none)
    | some monitor =>
      match monitor.deskDupl, monitor.texture with
      | some d, some t =>
        if FAILED env.AcquireNextFrame then
          if env.AcquireNextFrame = DXGI_ERROR_ACCESS_LOST then
            ((Event.AcquireNextFrame d g.g_timeout env.AcquireNextFrame) ::
                (InitializeDuplication env { g with g_errorCode := env.AcquireNextFrame }).1,
              (InitializeDuplication env { g with g_errorCode := env.AcquireNextFrame }).2.map
                (fun g1 => { g1 with g_errorMessage :=
                  "[IDXGIOutputDuplication::AcquireNextFrame()] Access lost." }))
          else
            ([Event.AcquireNextFrame d g.g_timeout env.AcquireNextFrame],
              some { g with g_errorCode := env.AcquireNextFrame,
                            g_errorMessage :=
                  "[IDXGIOutputDuplication::AcquireNextFrame()] Maybe timeout." })
        else
          match g.g_unity with
          | none => ([Event.AcquireNextFrame d g.g_timeout env.AcquireNextFrame], none)
          | some _ =>
            match (UpdateMouse env g.g_unity g.g_mouseMonitor env.frameInfo monitor).2 with
            | none =>
              ((Event.AcquireNextFrame d g.g_timeout env.AcquireNextFrame) ::
                (Event.CopyResource t) ::
                (UpdateMouse env g.g_unity g.g_mouseMonitor env.frameInfo monitor).1, none)
            | some (ok, monitor1, mouseMonitor) =>
              ((Event.AcquireNextFrame d g.g_timeout env.AcquireNextFrame) ::
                (Event.CopyResource t) ::
                ((UpdateMouse env g.g_unity g.g_mouseMonitor env.frameInfo monitor).1 ++
                  [Event.ResourceRelease, Event.ReleaseFrame d]),
                some
                  { g with
                    g_mouseMonitor := mouseMonitor
                    g_monitors := g.g_monitors.set id.toNat monitor1
                    g_errorCode := if ok then env.AcquireNextFrame else -999
                    g_errorMessage := if ok then g.g_errorMessage else "[UpdateMouse()] failed." })
      | _, _ => ([], some g)

/-- The function `GetMonitorCount` (lines 337-340). -/
def GetMonitorCount (g : Globals) : Nat := g.g_monitors.length

/-- The function `SetTimeout` (lines 342-345). -/
def SetTimeout (g : Globals) (timeout : Int) : Globals := { g with g_timeout := timeout }

/-- The function `GetPointerShapeHeight` (lines 397-402); the `UINT` result is returned as
an `int`. -/
def GetPointerShapeHeight (g : Globals) (id : Int) : Int :=
  if !IsValidMonitorId g id then -1
  else
    match g.g_monitors[id.toNat]? with
    | none => -1
    | some monitor =>
      if monitor.pointer.shapeInfo.Type_ = DXGI_OUTDUPL_POINTER_SHAPE_TYPE_MONOCHROME then
        toINT (monitor.pointer.shapeInfo.Height / 2)
      else toINT monitor.pointer.shapeInfo.Height

/-- The function `SetTexturePtr` (lines 427-431). -/
def SetTexturePtr (g : Globals) (id : Int) (texture : Option Nat) : Globals :=
  if !IsValidMonitorId g id then g
  else
    match g.g_monitors[id.toNat]? with
    | none => g
    | some monitor =>
      { g with g_monitors := g.g_monitors.set id.toNat { monitor with texture := texture } }

/-- The function `GetErrorCode` (lines 433-438): the code read, and the globals after. -/
def GetErrorCode (g : Globals) : Int × Globals := (g.g_errorCode, { g with g_errorCode := 0 })

/-- The function `GetErrorMessage` (lines 440-445): the text copied into a buffer that
holds it, and the globals after. -/
def GetErrorMessage (g : Globals) : String × Globals :=
  (g.g_errorMessage, { g with g_errorMessage := "" })

/-! ## Reference values of the decode rules -/

/-- The word of the desktop surface at a word index, by `getD`. -/
def wordAt (b : Buffer) (n : Nat) : Nat :=
  b.getD (4 * n) 0 + 256 * b.getD (4 * n + 1) 0 + 65536 * b.getD (4 * n + 2) 0 +
    16777216 * b.getD (4 * n + 3) 0


/-- The pixel value the monochrome rule gives: `a` is the AND-plane byte, `x` the XOR-plane
byte, `d` the desktop word, and the bit tested is `0x80 >> (col mod 8)`. -/
def monochromeSpec (a x d col : Nat) : Nat :=
  (d &&& (if a &&& (0x80 >>> (col % 8)) ≠ 0 then 0xFFFFFFFF else 0xFF000000)) ^^^
    (if x &&& (0x80 >>> (col % 8)) ≠ 0 then 0x00FFFFFF else 0x00000000)

/-- The pixel value the masked-colour rule gives for raw word `raw` over desktop word `d`:
the top byte of `raw` selects between XOR with the desktop and replacement. -/
def maskedColorSpec (raw d : Nat) : Nat :=
  if raw / 16777216 % 256 ≠ 0 then (d ^^^ raw) ||| 0xFF000000 else raw ||| 0xFF000000

/-! ## Sessions, well-formed states and runs of ticks -/

/-- The two states of a duplication session between which a tick moves it. -/
inductive SessionState where
  | Idle
  | Acquired
  deriving DecidableEq, Repr

/-- Effect of one external call on session `d`: a successful `AcquireNextFrame` on it checks
a frame out, `ReleaseFrame` on it gives the frame back. -/
def sessionStep (d : Nat) (s : SessionState) : Event → SessionState
  | Event.AcquireNextFrame d1 _ hr => if d1 = d ∧ 0 ≤ hr then SessionState.Acquired else s
  | Event.ReleaseFrame d1 => if d1 = d then SessionState.Idle else s
  | _ => s

/-- The state of session `d` after a trace of calls. -/
def sessionAfter (d : Nat) (s : SessionState) (tr : List Event) : SessionState :=
  tr.foldl (sessionStep d) s

/-- Number of `ReleaseFrame` calls on session `d` in a trace. -/
def releaseCount (d : Nat) (tr : List Event) : Nat := tr.count (Event.ReleaseFrame d)

/-- Whether the event is a successful `AcquireNextFrame` on session `d`. -/
def isAcquired (d : Nat) : Event → Bool
  | Event.AcquireNextFrame d1 _ hr => decide (d1 = d) && decide (0 ≤ hr)
  | _ => false

/-- Number of successful `AcquireNextFrame` calls on session `d` in a trace. -/
def acquireCount (d : Nat) (tr : List Event) : Nat := (tr.filter (isAcquired d)).length

/-- Whether the event is a call of the frame cycle (`AcquireNextFrame` / `ReleaseFrame`). -/
def isFrameCall : Event → Bool
  | Event.AcquireNextFrame _ _ _ => true
  | Event.ReleaseFrame _ => true
  | _ => false

/-- The sizes recorded for the two buffers of a pointer are their extents, and a null buffer
has recorded size 0. -/
def Pointer.wf (pointer : Pointer) : Prop :=
  (match pointer.apiBuffer with
    | none => pointer.apiBufferSize = 0
    | some b => b.length = pointer.apiBufferSize) ∧
  (match pointer.bgra32Buffer with
    | none => pointer.bgra32BufferSize = 0
    | some b => b.length = pointer.bgra32BufferSize)

/-- Every display carries its index in `g_monitors` as its id (what lines 65-85 establish). -/
def wfIds (ms : List Monitor) : Prop :=
  ∀ (k : Nat) (m : Monitor), ms[k]? = some m → m.id = (k : Int)

/-- The monitor `m1` is `m` up to the visibility flag and the position of its pointer. -/
def samePointerShape (m m1 : Monitor) : Prop :=
  m1 = { m with pointer := { m.pointer with isVisible := m1.pointer.isVisible,
                                             x := m1.pointer.x, y := m1.pointer.y } }

/-- A sequence of capture ticks, each with its display id and the answers of the system;
`none` when a tick faults. -/
def runTicks : Globals → List (Env × Int) → Option Globals
  | g, [] => some g
  | g, (env, id) :: rest =>
    match (OnRenderEvent env g id).2 with
    | none => none
    | some g1 => runTicks g1 rest

/-! ## Sample states -/

/-- A display record as enumeration leaves it, with the given id, session and texture. -/
def sampleMonitor (id : Int) (deskDupl texture : Option Nat) : Monitor :=
  { id := id, deskDupl := deskDupl, texture := texture, outputDesc := 0,
    monitorInfo := { left := 0, top := 0, right := 1920, bottom := 1080, dwFlags := 1,
                     szDevice := "DISPLAY" },
    pointer := { isVisible := false, x := -1, y := -1, apiBuffer := none, apiBufferSize := 0,
                 bgra32Buffer := none, bgra32BufferSize := 0,
                 shapeInfo := { Type_ := 0, Width := 0, Height := 0, Pitch := 0 } } }

/-- Globals with the given display list, display 0 active, and an empty error channel. -/
def sampleGlobals (ms : List Monitor) : Globals :=
  { g_unity := some 1, g_mouseMonitor := 0, g_timeout := 10, g_errorCode := 0,
    g_errorMessage := "", g_monitors := ms }

/-- Answers of a system in which every call succeeds, the pointer is hidden and no shape is
announced. -/
def sampleEnv : Env :=
  { AcquireNextFrame := 0
    frameInfo := { Visible := false, x := 0, y := 0, PointerShapeBufferSize := 0 }
    GetFramePointerShape := none
    CreateTexture2D := 0
    QueryInterface := 0
    Map := 0
    pBits := []
    Pitch := 0
    Unmap := 0
    uninit := fun _ => 0
    adapters := [] }

/-- A trace without calls of the frame cycle. -/
def noFrameCalls (tr : List Event) : Prop := ∀ e ∈ tr, isFrameCall e = false

/-- Answers of a system in which every call succeeds, with the given pointer visibility,
announced shape size and shape reply. -/
def sampleFrame (visible : Bool) (size : Nat)
    (reply : Option (Buffer × DXGI_OUTDUPL_POINTER_SHAPE_INFO)) : Env :=
  { sampleEnv with
    frameInfo := { Visible := visible, x := 10, y := 20, PointerShapeBufferSize := size }
    GetFramePointerShape := reply }

/-- A display whose pointer last had a 4 x 4 colour shape (64 raw bytes, 64 decoded bytes). -/
def colorShapeMonitor : Monitor :=
  { sampleMonitor 0 (some 5) (some 9) with
    pointer := { isVisible := true, x := 10, y := 20,
                 apiBuffer := some (List.range 64), apiBufferSize := 64,
                 bgra32Buffer := some (List.replicate 64 0), bgra32BufferSize := 64,
                 shapeInfo := { Type_ := DXGI_OUTDUPL_POINTER_SHAPE_TYPE_COLOR, Width := 4,
                                Height := 4, Pitch := 16 } } }

/-- A frame that announces a monochrome 8 x 1 shape: raw height 2 (AND row `0x00`, XOR row
`0xFF`), pitch 1, two bytes of payload. -/
def monochromeShapeFrame : Env :=
  sampleFrame true 2
    (some ([0x00, 0xFF],
      { Type_ := DXGI_OUTDUPL_POINTER_SHAPE_TYPE_MONOCHROME, Width := 8, Height := 2, Pitch := 1 }))

/-- The invariant of a run in which display `D` is the active mouse display: relative to the
state `g0` the run started from, every other display differs at most in the visibility flag
and position of its pointer. -/
def activeInv (D : Nat) (g0 g : Globals) : Prop :=
  g.g_mouseMonitor = (D : Int) ∧ g.g_monitors.length = g0.g_monitors.length ∧
    wfIds g.g_monitors ∧
    ∀ (k : Nat) (m m1 : Monitor), k ≠ D → g0.g_monitors[k]? = some m →
      g.g_monitors[k]? = some m1 → samePointerShape m m1

/-- A display whose pointer last had a monochrome 8 x 1 shape (raw height 2, pitch 1), with
a raw buffer of 16 bytes and a decoded buffer of 32 bytes. -/
def monochromeShapeMonitor : Monitor :=
  { sampleMonitor 0 (some 5) (some 9) with
    pointer := { isVisible := true, x := 10, y := 20,
                 apiBuffer := some (List.replicate 16 0), apiBufferSize := 16,
                 bgra32Buffer := some (List.replicate 32 0), bgra32BufferSize := 32,
                 shapeInfo := { Type_ := DXGI_OUTDUPL_POINTER_SHAPE_TYPE_MONOCHROME, Width := 8,
                                Height := 2, Pitch := 1 } } }

/-- A frame that announces a colour 2 x 2 shape (pitch 8, raw bytes 0 to 15), over a desktop
whose mapped bytes are all 7. -/
def colorShapeFrame : Env :=
  { sampleFrame true 16
      (some (List.range 16,
        { Type_ := DXGI_OUTDUPL_POINTER_SHAPE_TYPE_COLOR, Width := 2, Height := 2, Pitch := 8 })) with
    pBits := List.replicate 8 7
    Pitch := 8 }

/-! ## Lemmas on loops, memory and machine arithmetic -/


theorem forRange_succ {σ : Type} (n : Nat) (body : Nat → σ → Option σ) (s : σ) :
    forRange (n + 1) body s = (forRange n body s).bind (body n) := by
  simp [forRange, List.range_succ, List.foldlM_append]

theorem forRange_zero {σ : Type} (body : Nat → σ → Option σ) (s : σ) :
    forRange 0 body s = some s := by
  simp [forRange]

theorem forRange_inv {σ : Type} (Inv : Nat → σ → Prop) (body : Nat → σ → Option σ) (s : σ) :
    ∀ n : Nat, Inv 0 s →
      (∀ i st, i < n → Inv i st → ∃ st', body i st = some st' ∧ Inv (i + 1) st') →
      ∃ st', forRange n body s = some st' ∧ Inv n st' := by
  intro n
  induction n with
  | zero => intro h0 _; exact ⟨s, forRange_zero body s, h0⟩
  | succ n ih =>
    intro h0 hstep
    obtain ⟨st, hst, hinv⟩ := ih h0 (fun i st hi h => hstep i st (Nat.lt_succ_of_lt hi) h)
    obtain ⟨st', hb, hinv'⟩ := hstep n st (Nat.lt_succ_self n) hinv
    exact ⟨st', by rw [forRange_succ, hst]; exact hb, hinv'⟩

theorem readUINT_natCast (b : Buffer) (n : Nat) :
    readUINT b (n : Int) =
      match b[4 * n]?, b[4 * n + 1]?, b[4 * n + 2]?, b[4 * n + 3]? with
      | some b0, some b1, some b2, some b3 => some (b0 + 256 * b1 + 65536 * b2 + 16777216 * b3)
      | _, _, _, _ => none := by
  simp [readUINT]

theorem writeUINT_natCast (b : Buffer) (n v : Nat) :
    writeUINT b (n : Int) v =
      if 4 * n + 3 < b.length then
        some ((((b.set (4 * n) (v % 256)).set (4 * n + 1) (v / 256 % 256)).set
          (4 * n + 2) (v / 65536 % 256)).set (4 * n + 3) (v / 16777216 % 256))
      else none := by
  simp [writeUINT]

theorem writeUINT_length {b b' : Buffer} {n v : Nat} (h : writeUINT b (n : Int) v = some b') :
    b'.length = b.length := by
  rw [writeUINT_natCast] at h
  split at h
  · cases h; simp
  · cases h

theorem readUINT_writeUINT_same {b b' : Buffer} {n v : Nat}
    (h : writeUINT b (n : Int) v = some b') : readUINT b' (n : Int) = some (v % 4294967296) := by
  rw [writeUINT_natCast] at h
  split at h
  · cases h
    rw [readUINT_natCast]
    simp [List.getElem?_set]
    have h0 : 4 * n < b.length := by omega
    have h1 : 4 * n + 1 < b.length := by omega
    have h2 : 4 * n + 2 < b.length := by omega
    simp [*]
    omega
  · cases h

theorem writeUINT_getElem?_other {b b' : Buffer} {n v : Nat}
    (h : writeUINT b (n : Int) v = some b') (k : Nat) (hk : k < 4 * n ∨ 4 * n + 3 < k) :
    b'[k]? = b[k]? := by
  rw [writeUINT_natCast] at h
  split at h
  · cases h
    rw [List.getElem?_set_ne (by omega), List.getElem?_set_ne (by omega),
      List.getElem?_set_ne (by omega), List.getElem?_set_ne (by omega)]
  · cases h

theorem readUINT_writeUINT_other {b b' : Buffer} {n m v : Nat}
    (h : writeUINT b (n : Int) v = some b') (hne : m ≠ n) :
    readUINT b' (m : Int) = readUINT b (m : Int) := by
  rw [readUINT_natCast, readUINT_natCast,
    writeUINT_getElem?_other h (4 * m) (by omega), writeUINT_getElem?_other h (4 * m + 1) (by omega),
    writeUINT_getElem?_other h (4 * m + 2) (by omega), writeUINT_getElem?_other h (4 * m + 3) (by omega)]

theorem writeUINT_getElem?_same {b b' : Buffer} {n v : Nat}
    (h : writeUINT b (n : Int) v = some b') :
    b'[4 * n]? = some (v % 256) ∧ b'[4 * n + 1]? = some (v / 256 % 256) ∧
      b'[4 * n + 2]? = some (v / 65536 % 256) ∧ b'[4 * n + 3]? = some (v / 16777216 % 256) := by
  rw [writeUINT_natCast] at h
  split at h
  · cases h
    have h0 : 4 * n < b.length := by omega
    have h1 : 4 * n + 1 < b.length := by omega
    have h2 : 4 * n + 2 < b.length := by omega
    simp [List.getElem?_set, *]
  · cases h

theorem readUINT_some {b : Buffer} {n : Nat} (h : 4 * n + 3 < b.length) :
    ∃ d, readUINT b (n : Int) = some d ∧
      d = b.getD (4 * n) 0 + 256 * b.getD (4 * n + 1) 0 + 65536 * b.getD (4 * n + 2) 0 +
        16777216 * b.getD (4 * n + 3) 0 := by
  have h0 : 4 * n < b.length := by omega
  have h1 : 4 * n + 1 < b.length := by omega
  have h2 : 4 * n + 2 < b.length := by omega
  rw [readUINT_natCast]
  simp [List.getElem?_eq_getElem, List.getD_eq_getElem?_getD, *]

theorem readUINT_lt {b : Buffer} (hb : isBytes b) {j : Int} {d : Nat}
    (h : readUINT b j = some d) : d < 4294967296 := by
  unfold readUINT at h
  split at h
  · cases h
  · split at h
    · rename_i b0 b1 b2 b3 e0 e1 e2 e3
      cases h
      have := hb b0 (List.getElem?_mem e0)
      have := hb b1 (List.getElem?_mem e1)
      have := hb b2 (List.getElem?_mem e2)
      have := hb b3 (List.getElem?_mem e3)
      omega
    · cases h

theorem toUINT_of_lt {n : Nat} (h : n < 4294967296) : toUINT n = n := Nat.mod_eq_of_lt h

theorem toINT_of_lt {n : Nat} (h : n < 2147483648) : toINT n = (n : Int) := by
  have : n % 4294967296 = n := Nat.mod_eq_of_lt (by omega)
  simp [toINT, this, h]

theorem pixel_index_lt {w h row col : Nat} (hr : row < h) (hc : col < w) :
    row * w + col < w * h := by
  have h1 : (row + 1) * w ≤ h * w := Nat.mul_le_mul_right w hr
  have h2 : (row + 1) * w = row * w + w := by ring
  have h3 : h * w = w * h := Nat.mul_comm h w
  omega

theorem mask_step (col : Nat) :
    (if 0x80 >>> (col % 8) = 0x01 then 0x80 else (0x80 >>> (col % 8)) >>> 1) =
      0x80 >>> ((col + 1) % 8) := by
  have h8 : col % 8 < 8 := Nat.mod_lt _ (by decide)
  have hs : (col + 1) % 8 = if col % 8 = 7 then 0 else col % 8 + 1 := by
    split <;> omega
  rw [hs]
  generalize col % 8 = k at h8
  interval_cases k <;> decide

theorem monochromeSpec_lt (a x d col : Nat) : monochromeSpec a x d col < 4294967296 := by
  unfold monochromeSpec
  apply Nat.xor_lt_two_pow (n := 32)
  · split
    · exact lt_of_le_of_lt Nat.and_le_right (by decide)
    · exact lt_of_le_of_lt Nat.and_le_right (by decide)
  · split <;> decide

theorem monoPixel_eq {w h p dp : Nat} {api desk : Buffer} {row col a x d : Nat} (out : Buffer)
    (hi : row * w + col < 2147483648)
    (ha : api[col / 8 + row * p]? = some a) (hx : api[col / 8 + (row + h) * p]? = some x)
    (hxl : col / 8 + (row + h) * p < 4294967296) (hrh : row + h < 4294967296)
    (hd : readUINT desk ((row * dp + col : Nat) : Int) = some d)
    (hdl : row * dp + col < 4294967296) :
    monoPixel w h p dp api desk row col (0x80 >>> (col % 8), out) =
      (writeUINT out ((row * w + col : Nat) : Int) (monochromeSpec a x d col)).map
        (fun o => (0x80 >>> ((col + 1) % 8), o)) := by
  have e1 : toUINT (row * w) = row * w := toUINT_of_lt (by omega)
  have e2 : toUINT (row * w + col) = row * w + col := toUINT_of_lt (by omega)
  have hle : row * p ≤ (row + h) * p := Nat.mul_le_mul_right p (Nat.le_add_right row h)
  have e3 : toUINT (row * p) = row * p := toUINT_of_lt (by omega)
  have e4 : toUINT (col / 8 + row * p) = col / 8 + row * p := toUINT_of_lt (by omega)
  have e5 : toUINT (row + h) = row + h := toUINT_of_lt hrh
  have e6 : toUINT ((row + h) * p) = (row + h) * p := toUINT_of_lt (by omega)
  have e7 : toUINT (col / 8 + (row + h) * p) = col / 8 + (row + h) * p := toUINT_of_lt hxl
  have e8 : toUINT (row * dp) = row * dp := toUINT_of_lt (by omega)
  have e9 : toUINT (row * dp + col) = row * dp + col := toUINT_of_lt hdl
  have e10 : toINT (row * w + col) = ((row * w + col : Nat) : Int) := toINT_of_lt hi
  simp only [monoPixel, e1, e2, e3, e4, e5, e6, e7, e8, e9, e10, readByte, ha, hx, hd,
    Option.bind_eq_bind, Option.some_bind, Option.pure_def, mask_step]
  cases hw : writeUINT out ((row * w + col : Nat) : Int) (monochromeSpec a x d col) with
  | none => simp [monochromeSpec] at hw ⊢; simp [hw]
  | some o => simp [monochromeSpec] at hw ⊢; simp [hw]

theorem getElem?_eq_some_getD {b : Buffer} {k : Nat} (h : k < b.length) :
    b[k]? = some (b.getD k 0) := by
  simp [List.getD_eq_getElem?_getD, List.getElem?_eq_getElem h]

theorem readUINT_eq_wordAt {b : Buffer} {n : Nat} (h : 4 * n + 3 < b.length) :
    readUINT b (n : Int) = some (wordAt b n) := by
  obtain ⟨d, hd, e⟩ := readUINT_some h
  rw [hd, e]; rfl

theorem decodeMonochrome_pixels (w h p dp : Nat) (api desk out : Buffer)
    (hout : 4 * (w * h) ≤ out.length) (houtl : out.length < 4294967296)
    (hapi : ∀ row col, row < h → col < w → col / 8 + (row + h) * p < api.length)
    (hapil : api.length < 4294967296)
    (hdesk : ∀ row col, row < h → col < w → 4 * (row * dp + col) + 3 < desk.length)
    (hdeskl : desk.length < 4294967296) :
    ∃ out', decodeMonochrome w h p dp api desk out = some out' ∧ out'.length = out.length ∧
      ∀ row col, row < h → col < w →
        readUINT out' ((row * w + col : Nat) : Int) =
          some (monochromeSpec (api.getD (col / 8 + row * p) 0)
            (api.getD (col / 8 + (row + h) * p) 0) (wordAt desk (row * dp + col)) col) := by
  have hwh : w * h < 1073741824 := by omega
  -- the outer loop
  have houter := forRange_inv
    (fun row (o : Buffer) => o.length = out.length ∧
      ∀ r c, r < row → c < w →
        readUINT o ((r * w + c : Nat) : Int) =
          some (monochromeSpec (api.getD (c / 8 + r * p) 0)
            (api.getD (c / 8 + (r + h) * p) 0) (wordAt desk (r * dp + c)) c))
    (monoRow w h p dp api desk) out h ⟨rfl, fun r c hr => absurd hr (Nat.not_lt_zero r)⟩
    (by
      intro row o hrow ⟨hlen, hprev⟩
      -- the inner loop
      have hinner := forRange_inv
        (fun col (st : Nat × Buffer) => st.1 = 0x80 >>> (col % 8) ∧ st.2.length = out.length ∧
          (∀ r c, r < row → c < w →
            readUINT st.2 ((r * w + c : Nat) : Int) =
              some (monochromeSpec (api.getD (c / 8 + r * p) 0)
                (api.getD (c / 8 + (r + h) * p) 0) (wordAt desk (r * dp + c)) c)) ∧
          (∀ c, c < col →
            readUINT st.2 ((row * w + c : Nat) : Int) =
              some (monochromeSpec (api.getD (c / 8 + row * p) 0)
                (api.getD (c / 8 + (row + h) * p) 0) (wordAt desk (row * dp + c)) c)))
        (monoPixel w h p dp api desk row) (0x80, o) w
        ⟨rfl, hlen, hprev, fun c hc => absurd hc (Nat.not_lt_zero c)⟩
        (by
          intro col st hcol ⟨hmask, hl, hrows, hcols⟩
          obtain ⟨mask, o1⟩ := st
          simp only at hmask hl hrows hcols
          subst hmask
          have hidx := pixel_index_lt hrow hcol
          have hx := hapi row col hrow hcol
          have hle : row * p ≤ (row + h) * p := Nat.mul_le_mul_right p (Nat.le_add_right row h)
          have hd := hdesk row col hrow hcol
          have hhw : h ≤ w * h := Nat.le_mul_of_pos_left h (by omega)
          rw [monoPixel_eq o1 (by omega) (getElem?_eq_some_getD (by omega))
            (getElem?_eq_some_getD hx) (by omega) (by omega) (readUINT_eq_wordAt hd) (by omega)]
          have hws : 4 * (row * w + col) + 3 < o1.length := by omega
          cases hw : writeUINT o1 ((row * w + col : Nat) : Int)
              (monochromeSpec (api.getD (col / 8 + row * p) 0)
                (api.getD (col / 8 + (row + h) * p) 0) (wordAt desk (row * dp + col)) col) with
          | none => rw [writeUINT_natCast, if_pos hws] at hw; cases hw
          | some o2 =>
            refine ⟨_, rfl, rfl, ?_, ?_, ?_⟩
            · simp only; rw [writeUINT_length hw, hl]
            · intro r c hr hc
              simp only
              rw [readUINT_writeUINT_other hw, hrows r c hr hc]
              have := pixel_index_lt (h := row) hr hc
              have : w * row = row * w := Nat.mul_comm w row
              omega
            · intro c hc
              simp only
              by_cases hcc : c = col
              · subst hcc
                rw [readUINT_writeUINT_same hw, Nat.mod_eq_of_lt (monochromeSpec_lt _ _ _ _)]
              · rw [readUINT_writeUINT_other hw (by omega), hcols c (by omega)])
      obtain ⟨st, hst, -, hl, hrows, hcols⟩ := hinner
      refine ⟨st.2, by simp [monoRow, hst], hl, ?_⟩
      intro r c hr hc
      by_cases hrr : r = row
      · subst hrr; exact hcols c hc
      · exact hrows r c (by omega) hc)
  obtain ⟨out', hdec, hl, hpix⟩ := houter
  exact ⟨out', hdec, hl, hpix⟩

theorem testBit_hi_mask (i : Nat) :
    (4278190080 : Nat).testBit i = (decide (24 ≤ i) && decide (i < 32)) := by
  have h : (4278190080 : Nat) = (2 ^ 8 - 1) <<< 24 := by decide
  rw [h, Nat.testBit_shiftLeft, Nat.testBit_two_pow_sub_one]
  by_cases h1 : 24 ≤ i
  · by_cases h2 : i < 32
    · have : i - 24 < 8 := by omega
      simp [h1, h2, this]
    · have : ¬ (i - 24 < 8) := by omega
      simp [h1, h2, this]
  · simp [h1]

theorem testBit_lo_mask (i : Nat) : (16777215 : Nat).testBit i = decide (i < 24) := by
  have h : (16777215 : Nat) = 2 ^ 24 - 1 := by decide
  rw [h, Nat.testBit_two_pow_sub_one]

theorem testBit_of_ge_32 {d i : Nat} (hd : d < 4294967296) (hi : 32 ≤ i) :
    d.testBit i = false := by
  apply Nat.testBit_lt_two_pow
  calc d < 2 ^ 32 := hd
    _ ≤ 2 ^ i := Nat.pow_le_pow_right (by decide) hi

/-- The top byte of a word is what the mask `0xFF000000` keeps. -/
theorem and_hi_mask {d : Nat} (hd : d < 4294967296) :
    d &&& 4278190080 = d / 16777216 * 16777216 := by
  have e : d / 16777216 * 16777216 = (d >>> 24) <<< 24 := by
    rw [Nat.shiftLeft_eq, Nat.shiftRight_eq_div_pow]
  rw [e]
  apply Nat.eq_of_testBit_eq
  intro i
  rw [Nat.testBit_and, testBit_hi_mask, Nat.testBit_shiftLeft, Nat.testBit_shiftRight]
  by_cases h1 : 24 ≤ i
  · by_cases h2 : i < 32
    · have : 24 + (i - 24) = i := by omega
      simp [h1, h2, this]
    · have : 24 + (i - 24) = i := by omega
      simp [h1, h2, this, testBit_of_ge_32 hd (by omega : 32 ≤ i)]
  · simp [h1]

/-- Setting the alpha byte: `v | 0xFF000000` keeps the low 24 bits and has top byte `0xFF`. -/
theorem or_hi_mask {v : Nat} (hv : v < 4294967296) :
    v ||| 4278190080 = 4278190080 + v % 16777216 := by
  have e : 4278190080 + v % 16777216 = 2 ^ 24 * 255 ||| v % 2 ^ 24 := by
    rw [← Nat.mul_add_lt_is_or (Nat.mod_lt _ (by decide)) 255]
  rw [e]
  apply Nat.eq_of_testBit_eq
  intro i
  have hm : (2 ^ 24 * 255 : Nat) = 4278190080 := by norm_num
  rw [Nat.testBit_or, Nat.testBit_or, hm, testBit_hi_mask, Nat.testBit_mod_two_pow]
  by_cases h1 : 24 ≤ i
  · by_cases h2 : i < 32
    · simp [h1, h2]
    · have : ¬ (i < 24) := by omega
      simp [h1, h2, this, testBit_of_ge_32 hv (by omega : 32 ≤ i)]
  · have : i < 24 := by omega
    simp [h1, this]

theorem or_hi_mask_lt {v : Nat} (hv : v < 4294967296) : v ||| 4278190080 < 4294967296 := by
  rw [or_hi_mask hv]; omega

theorem or_hi_mask_alpha {v : Nat} (hv : v < 4294967296) :
    (v ||| 4278190080) / 16777216 % 256 = 255 := by
  rw [or_hi_mask hv]; omega

theorem hi_mask_and_ne_zero {raw : Nat} (h : raw < 4294967296) :
    (4278190080 &&& raw ≠ 0) ↔ raw / 16777216 % 256 ≠ 0 := by
  rw [Nat.and_comm, and_hi_mask h]; omega

theorem wordAt_lt {b : Buffer} (hb : isBytes b) {n : Nat} (h : 4 * n + 3 < b.length) :
    wordAt b n < 4294967296 :=
  readUINT_lt hb (readUINT_eq_wordAt h)

theorem maskedColorSpec_lt {raw d : Nat} (hr : raw < 4294967296) (hd : d < 4294967296) :
    maskedColorSpec raw d < 4294967296 := by
  unfold maskedColorSpec
  split
  · exact or_hi_mask_lt (Nat.xor_lt_two_pow (n := 32) hd hr)
  · exact or_hi_mask_lt hr

theorem maskedPixel_eq {w p dp : Nat} {api desk : Buffer} {row col : Nat} (out : Buffer)
    (hi : row * w + col < 2147483648)
    (hraw : 4 * (row * p / 4 + col) + 3 < api.length) (hapil : api.length < 4294967296)
    (hb : isBytes api)
    (hd : 4 * (row * dp + col) + 3 < desk.length) (hdl : desk.length < 4294967296) :
    maskedPixel w p dp api desk row col out =
      writeUINT out ((row * w + col : Nat) : Int)
        (maskedColorSpec (wordAt api (row * p / 4 + col)) (wordAt desk (row * dp + col))) := by
  have e1 : toUINT (row * w) = row * w := toUINT_of_lt (by omega)
  have e2 : toUINT (row * w + col) = row * w + col := toUINT_of_lt (by omega)
  have e3 : toUINT (row * p) = row * p := toUINT_of_lt (by omega)
  have e8 : toUINT (row * dp) = row * dp := toUINT_of_lt (by omega)
  have e9 : toUINT (row * dp + col) = row * dp + col := toUINT_of_lt (by omega)
  have e10 : toINT (row * w + col) = ((row * w + col : Nat) : Int) := toINT_of_lt hi
  have e11 : toINT (row * p / 4 + col) = ((row * p / 4 + col : Nat) : Int) :=
    toINT_of_lt (by omega)
  have hlt := wordAt_lt hb hraw
  simp only [maskedPixel, maskedIndex, e1, e2, e3, e8, e9, e10, e11, readUINT_eq_wordAt hraw,
    readUINT_eq_wordAt hd, Option.bind_eq_bind, Option.some_bind, maskedColorSpec]
  by_cases hm : wordAt api (row * p / 4 + col) / 16777216 % 256 ≠ 0
  · rw [if_pos ((hi_mask_and_ne_zero hlt).mpr hm), if_pos hm]
  · rw [if_neg (fun hc => hm ((hi_mask_and_ne_zero hlt).mp hc)), if_neg hm]

theorem decodeMaskedColor_pixels (w h p dp : Nat) (api desk out : Buffer)
    (hout : 4 * (w * h) ≤ out.length) (houtl : out.length < 4294967296)
    (hapi : ∀ row col, row < h → col < w → 4 * (row * p / 4 + col) + 3 < api.length)
    (hapil : api.length < 4294967296) (hapib : isBytes api)
    (hdesk : ∀ row col, row < h → col < w → 4 * (row * dp + col) + 3 < desk.length)
    (hdeskl : desk.length < 4294967296) (hdeskb : isBytes desk) :
    ∃ out', decodeMaskedColor w h p dp api desk out = some out' ∧ out'.length = out.length ∧
      ∀ row col, row < h → col < w →
        readUINT out' ((row * w + col : Nat) : Int) =
          some (maskedColorSpec (wordAt api (row * p / 4 + col)) (wordAt desk (row * dp + col))) := by
  have hwh : w * h < 1073741824 := by omega
  exact forRange_inv
    (fun row (o : Buffer) => o.length = out.length ∧
      ∀ r c, r < row → c < w →
        readUINT o ((r * w + c : Nat) : Int) =
          some (maskedColorSpec (wordAt api (r * p / 4 + c)) (wordAt desk (r * dp + c))))
    _ out h ⟨rfl, fun r c hr => absurd hr (Nat.not_lt_zero r)⟩
    (by
      intro row o hrow ⟨hlen, hprev⟩
      have hinner := forRange_inv
        (fun col (o1 : Buffer) => o1.length = out.length ∧
          (∀ r c, r < row → c < w →
            readUINT o1 ((r * w + c : Nat) : Int) =
              some (maskedColorSpec (wordAt api (r * p / 4 + c)) (wordAt desk (r * dp + c)))) ∧
          (∀ c, c < col →
            readUINT o1 ((row * w + c : Nat) : Int) =
              some (maskedColorSpec (wordAt api (row * p / 4 + c))
                (wordAt desk (row * dp + c)))))
        (maskedPixel w p dp api desk row) o w
        ⟨hlen, hprev, fun c hc => absurd hc (Nat.not_lt_zero c)⟩
        (by
          intro col o1 hcol ⟨hl, hrows, hcols⟩
          have hidx := pixel_index_lt hrow hcol
          have hr := hapi row col hrow hcol
          have hd := hdesk row col hrow hcol
          rw [maskedPixel_eq o1 (by omega) hr hapil hapib hd hdeskl]
          have hws : 4 * (row * w + col) + 3 < o1.length := by omega
          cases hw : writeUINT o1 ((row * w + col : Nat) : Int)
              (maskedColorSpec (wordAt api (row * p / 4 + col))
                (wordAt desk (row * dp + col))) with
          | none => rw [writeUINT_natCast, if_pos hws] at hw; cases hw
          | some o2 =>
            refine ⟨_, rfl, ?_, ?_, ?_⟩
            · rw [writeUINT_length hw, hl]
            · intro r c hr' hc
              rw [readUINT_writeUINT_other hw, hrows r c hr' hc]
              have := pixel_index_lt (h := row) hr' hc
              have : w * row = row * w := Nat.mul_comm w row
              omega
            · intro c hc
              by_cases hcc : c = col
              · subst hcc
                rw [readUINT_writeUINT_same hw, Nat.mod_eq_of_lt
                  (maskedColorSpec_lt (wordAt_lt hapib hr) (wordAt_lt hdeskb hd))]
              · rw [readUINT_writeUINT_other hw (by omega), hcols c (by omega)])
      obtain ⟨o1, ho1, hl, hrows, hcols⟩ := hinner
      refine ⟨o1, ho1, hl, ?_⟩
      intro r c hr hc
      by_cases hrr : r = row
      · subst hrr; exact hcols c hc
      · exact hrows r c (by omega) hc)

theorem getD_lt_of_isBytes {b : Buffer} (hb : isBytes b) {k : Nat} (h : k < b.length) :
    b.getD k 0 < 256 :=
  hb _ (List.getElem?_mem (getElem?_eq_some_getD h))

theorem decodeColor_bytes (w h : Nat) (api out : Buffer)
    (hout : 4 * (w * h) ≤ out.length) (houtl : out.length < 4294967296)
    (hapi : 4 * (w * h) ≤ api.length) (hapib : isBytes api) :
    ∃ out', decodeColor w h api out = some out' ∧ out'.length = out.length ∧
      (∀ k, k < 4 * (w * h) → out'[k]? = api[k]?) ∧
      (∀ k, 4 * (w * h) ≤ k → out'[k]? = out[k]?) := by
  have hwh : toUINT (w * h) = w * h := toUINT_of_lt (by omega)
  unfold decodeColor
  rw [hwh]
  exact forRange_inv
    (fun i (o : Buffer) => o.length = out.length ∧ (∀ k, k < 4 * i → o[k]? = api[k]?) ∧
      (∀ k, 4 * i ≤ k → o[k]? = out[k]?))
    (colorPixel api) out (w * h) ⟨rfl, fun k hk => absurd hk (Nat.not_lt_zero k), fun _ _ => rfl⟩
    (by
      intro i o hi ⟨hl, hlo, hhi⟩
      have hr : 4 * i + 3 < api.length := by omega
      have hws : 4 * i + 3 < o.length := by omega
      simp only [colorPixel, readUINT_eq_wordAt hr, Option.bind_eq_bind, Option.some_bind]
      cases hw : writeUINT o (i : Int) (wordAt api i) with
      | none => rw [writeUINT_natCast, if_pos hws] at hw; cases hw
      | some o2 =>
        refine ⟨_, rfl, ?_, ?_, ?_⟩
        · rw [writeUINT_length hw, hl]
        · intro k hk
          by_cases hk4 : k < 4 * i
          · rw [writeUINT_getElem?_other hw k (Or.inl hk4), hlo k hk4]
          · obtain ⟨w0, w1, w2, w3⟩ := writeUINT_getElem?_same hw
            have b0 := getD_lt_of_isBytes hapib (show 4 * i < api.length by omega)
            have b1 := getD_lt_of_isBytes hapib (show 4 * i + 1 < api.length by omega)
            have b2 := getD_lt_of_isBytes hapib (show 4 * i + 2 < api.length by omega)
            have b3 := getD_lt_of_isBytes hapib (show 4 * i + 3 < api.length by omega)
            have hk' : k = 4 * i ∨ k = 4 * i + 1 ∨ k = 4 * i + 2 ∨ k = 4 * i + 3 := by omega
            rcases hk' with rfl | rfl | rfl | rfl
            · rw [w0, getElem?_eq_some_getD (by omega)]; unfold wordAt; congr 1; omega
            · rw [w1, getElem?_eq_some_getD (by omega)]; unfold wordAt; congr 1; omega
            · rw [w2, getElem?_eq_some_getD (by omega)]; unfold wordAt; congr 1; omega
            · rw [w3, getElem?_eq_some_getD (by omega)]; unfold wordAt; congr 1; omega
        · intro k hk
          rw [writeUINT_getElem?_other hw k (Or.inr (by omega)), hhi k (by omega)])

/-- C1: in the monochrome branch of `UpdateMouse`, for buffers that hold the image, every
pixel `(row, col)` with `row < h`, `col < w` of the decoded buffer, at word index
`row * w + col`, is `(d & andMask32) ^ xorMask32`, with `d` the desktop word at
`row * desktopPitch + col`, the bit `0x80 >> (col mod 8)` tested in raw byte
`col / 8 + row * p` (AND plane) and `col / 8 + (row + h) * p` (XOR plane); an AND bit of 1
with an XOR bit of 0 yields `d` itself. -/
theorem C1_monochrome_decode (w h p desktopPitch : Nat) (apiBuffer desktop32 output32 : Buffer)
    (hout : 4 * (w * h) ≤ output32.length) (houtl : output32.length < 4294967296)
    (hapi : ∀ row col, row < h → col < w → col / 8 + (row + h) * p < apiBuffer.length)
    (hapil : apiBuffer.length < 4294967296)
    (hdesk : ∀ row col, row < h → col < w →
      4 * (row * desktopPitch + col) + 3 < desktop32.length)
    (hdeskl : desktop32.length < 4294967296) (hdeskb : isBytes desktop32) :
    ∃ out, decodeMonochrome w h p desktopPitch apiBuffer desktop32 output32 = some out ∧
      ∀ row col, row < h → col < w →
        ∃ a x d, readByte apiBuffer (col / 8 + row * p) = some a ∧
          readByte apiBuffer (col / 8 + (row + h) * p) = some x ∧
          readUINT desktop32 ((row * desktopPitch + col : Nat) : Int) = some d ∧
          readUINT out ((row * w + col : Nat) : Int) =
            some ((d &&& (if a &&& (0x80 >>> (col % 8)) ≠ 0 then 0xFFFFFFFF else 0xFF000000)) ^^^
              (if x &&& (0x80 >>> (col % 8)) ≠ 0 then 0x00FFFFFF else 0x00000000)) ∧
          (a &&& (0x80 >>> (col % 8)) ≠ 0 → x &&& (0x80 >>> (col % 8)) = 0 →
            readUINT out ((row * w + col : Nat) : Int) = some d) := by
  obtain ⟨out, hdec, -, hpix⟩ :=
    decodeMonochrome_pixels w h p desktopPitch apiBuffer desktop32 output32 hout houtl hapi hapil
      hdesk hdeskl
  refine ⟨out, hdec, ?_⟩
  intro row col hr hc
  have hx := hapi row col hr hc
  have hle : row * p ≤ (row + h) * p := Nat.mul_le_mul_right p (Nat.le_add_right row h)
  have hd := hdesk row col hr hc
  refine ⟨_, _, _, getElem?_eq_some_getD (by omega), getElem?_eq_some_getD hx,
    readUINT_eq_wordAt hd, hpix row col hr hc, ?_⟩
  intro ha hx0
  rw [hpix row col hr hc]
  have hlt := wordAt_lt hdeskb hd
  have hff : (0xFFFFFFFF : Nat) = 2 ^ 32 - 1 := by decide
  simp only [monochromeSpec, if_pos ha, hx0, ne_eq, not_true_eq_false, if_false, Nat.xor_zero]
  rw [hff, Nat.and_pow_two_sub_one_of_lt_two_pow hlt]

/-- C1 at a 9-pixel row (pitch 2): pixel 0 (AND 1, XOR 0) is the desktop word, pixel 8
(AND 1, XOR 1), read with the mask restarted at `0x80` in the second byte, is inverted. -/
theorem C1_monochrome_decode_witness :
    ∃ out, decodeMonochrome 9 1 2 9 [0xFF, 0x80, 0x00, 0x80] (List.replicate 36 7)
        (List.replicate 36 0) = some out ∧
      readUINT out 0 = some 0x07070707 ∧ readUINT out 8 = some 0x07F8F8F8 := by
  obtain ⟨out, hdec, hpix⟩ :=
    C1_monochrome_decode 9 1 2 9 [0xFF, 0x80, 0x00, 0x80] (List.replicate 36 7)
      (List.replicate 36 0) (by decide) (by decide)
      (by intro row col hr hc; simp only [List.length_cons, List.length_nil]; omega) (by decide)
      (by intro row col hr hc; simp only [List.length_replicate]; omega) (by decide)
      (by unfold isBytes; decide)
  refine ⟨out, hdec, ?_, ?_⟩
  · obtain ⟨a, x, d, ha, hx, hd, hv, -⟩ := hpix 0 0 (by decide) (by decide)
    have ea : a = 0xFF := by simpa [readByte] using ha.symm
    have ex : x = 0x00 := by simpa [readByte] using hx.symm
    have ed : d = 0x07070707 := Option.some.inj (hd.symm.trans (by decide))
    subst ea ex ed
    simpa using hv
  · obtain ⟨a, x, d, ha, hx, hd, hv, -⟩ := hpix 0 8 (by decide) (by decide)
    have ea : a = 0x80 := by simpa [readByte] using ha.symm
    have ex : x = 0x80 := by simpa [readByte] using hx.symm
    have ed : d = 0x07070707 := Option.some.inj (hd.symm.trans (by decide))
    subst ea ex ed
    simpa using hv

/-- White colour channels under the kept alpha byte: `(d & 0xFF000000) ^ 0x00FFFFFF`. -/
theorem and_hi_xor_lo {d : Nat} (hd : d < 4294967296) :
    (d &&& 4278190080) ^^^ 16777215 = d / 16777216 * 16777216 + 16777215 := by
  rw [and_hi_mask hd]
  have e : d / 16777216 * 16777216 + 16777215 = 2 ^ 24 * (d / 16777216) ||| 16777215 := by
    rw [← Nat.mul_add_lt_is_or (by decide) (d / 16777216)]
    omega
  have e2 : d / 16777216 * 16777216 = 2 ^ 24 * (d / 16777216) := by omega
  rw [e, e2]
  apply Nat.eq_of_testBit_eq
  intro i
  rw [Nat.testBit_xor, Nat.testBit_or, Nat.testBit_mul_pow_two, testBit_lo_mask]
  by_cases h1 : 24 ≤ i
  · have : ¬ (i < 24) := by omega
    simp [h1, this]
  · simp [h1]

/-- C3 (as amended): for a pixel whose AND bit is 0 and XOR bit is 1, the monochrome branch
of `UpdateMouse` writes `(d & 0xFF000000) ^ 0x00FFFFFF`: white colour channels under the
alpha byte of the desktop word `d`; it is `0xFFFFFFFF` exactly when that alpha byte is `0xFF`. -/
theorem C3_monochrome_white_keeps_alpha (w h p desktopPitch : Nat)
    (apiBuffer desktop32 output32 : Buffer)
    (hout : 4 * (w * h) ≤ output32.length) (houtl : output32.length < 4294967296)
    (hapi : ∀ row col, row < h → col < w → col / 8 + (row + h) * p < apiBuffer.length)
    (hapil : apiBuffer.length < 4294967296)
    (hdesk : ∀ row col, row < h → col < w →
      4 * (row * desktopPitch + col) + 3 < desktop32.length)
    (hdeskl : desktop32.length < 4294967296) (hdeskb : isBytes desktop32) :
    ∃ out, decodeMonochrome w h p desktopPitch apiBuffer desktop32 output32 = some out ∧
      ∀ row col, row < h → col < w →
        ∃ a x d, readByte apiBuffer (col / 8 + row * p) = some a ∧
          readByte apiBuffer (col / 8 + (row + h) * p) = some x ∧
          readUINT desktop32 ((row * desktopPitch + col : Nat) : Int) = some d ∧
          (a &&& (0x80 >>> (col % 8)) = 0 → x &&& (0x80 >>> (col % 8)) ≠ 0 →
            readUINT out ((row * w + col : Nat) : Int) =
                some ((d &&& 0xFF000000) ^^^ 0x00FFFFFF) ∧
              ((d &&& 0xFF000000) ^^^ 0x00FFFFFF = 0xFFFFFFFF ↔ d / 16777216 % 256 = 0xFF)) := by
  obtain ⟨out, hdec, -, hpix⟩ :=
    decodeMonochrome_pixels w h p desktopPitch apiBuffer desktop32 output32 hout houtl hapi hapil
      hdesk hdeskl
  refine ⟨out, hdec, ?_⟩
  intro row col hr hc
  have hx := hapi row col hr hc
  have hle : row * p ≤ (row + h) * p := Nat.mul_le_mul_right p (Nat.le_add_right row h)
  have hd := hdesk row col hr hc
  refine ⟨_, _, _, getElem?_eq_some_getD (by omega), getElem?_eq_some_getD hx,
    readUINT_eq_wordAt hd, ?_⟩
  intro ha hx1
  have hlt := wordAt_lt hdeskb hd
  constructor
  · rw [hpix row col hr hc]
    simp only [monochromeSpec, ha, if_pos hx1, ne_eq, not_true_eq_false, if_false]
  · rw [and_hi_xor_lo hlt]
    omega

/-- C3 (as amended) on one pixel over a desktop word with alpha byte `0x12`. -/
theorem C3_monochrome_white_keeps_alpha_witness :
    ∃ out, decodeMonochrome 1 1 1 1 [0x00, 0xFF] [0x56, 0x34, 0x12, 0x12] [0, 0, 0, 0] = some out ∧
      readUINT out 0 = some 0x12FFFFFF := by
  obtain ⟨out, hdec, hpix⟩ :=
    C3_monochrome_white_keeps_alpha 1 1 1 1 [0x00, 0xFF] [0x56, 0x34, 0x12, 0x12] [0, 0, 0, 0]
      (by decide) (by decide)
      (by intro row col hr hc; simp only [List.length_cons, List.length_nil]; omega) (by decide)
      (by intro row col hr hc; simp only [List.length_cons, List.length_nil]; omega) (by decide)
      (by unfold isBytes; decide)
  refine ⟨out, hdec, ?_⟩
  obtain ⟨a, x, d, ha, hx, hd, hv⟩ := hpix 0 0 (by decide) (by decide)
  have ea : a = 0x00 := Option.some.inj (ha.symm.trans (by decide))
  have ex : x = 0xFF := Option.some.inj (hx.symm.trans (by decide))
  have ed : d = 0x12123456 := Option.some.inj (hd.symm.trans (by decide))
  subst ea ex ed
  exact (hv (by decide) (by decide)).1

/-- C3 fails as stated: over a desktop word `0` (alpha byte `0x00`), AND byte `0x00` and XOR
byte `0xFF` decode to `0x00FFFFFF`, not `0xFFFFFFFF`. -/
theorem C3_counterexample :
    readByte [0x00, 0xFF] 0 = some 0x00 ∧ readByte [0x00, 0xFF] 1 = some 0xFF ∧
      readUINT [0, 0, 0, 0] 0 = some 0 ∧
      decodeMonochrome 1 1 1 1 [0x00, 0xFF] [0, 0, 0, 0] [0, 0, 0, 0] =
        some [0xFF, 0xFF, 0xFF, 0x00] ∧
      readUINT [0xFF, 0xFF, 0xFF, 0x00] 0 = some 0x00FFFFFF ∧
      readUINT [0xFF, 0xFF, 0xFF, 0x00] 0 ≠ some 0xFFFFFFFF := by
  decide

/-- C2 (as amended): in the masked-colour branch of `UpdateMouse`, for buffers that hold the
image, the decoded word of pixel `(row, col)` is taken from the raw word at index
`(row * p) / 4 + col` (the byte offset of the row divided by 4, which is `row * (p / 4) + col`
when `p` is a multiple of 4): it is `(d ^ rawPixel) | 0xFF000000` when the top byte of
`rawPixel` is nonzero and `rawPixel | 0xFF000000` when it is zero; the alpha byte written is
`0xFF` in both cases. -/
theorem C2_masked_color_decode (w h p desktopPitch : Nat)
    (apiBuffer desktop32 output32 : Buffer)
    (hout : 4 * (w * h) ≤ output32.length) (houtl : output32.length < 4294967296)
    (hapi : ∀ row col, row < h → col < w → 4 * (row * p / 4 + col) + 3 < apiBuffer.length)
    (hapil : apiBuffer.length < 4294967296) (hapib : isBytes apiBuffer)
    (hdesk : ∀ row col, row < h → col < w →
      4 * (row * desktopPitch + col) + 3 < desktop32.length)
    (hdeskl : desktop32.length < 4294967296) (hdeskb : isBytes desktop32) :
    ∃ out, decodeMaskedColor w h p desktopPitch apiBuffer desktop32 output32 = some out ∧
      ∀ row col, row < h → col < w →
        ∃ rawPixel d v, readUINT apiBuffer ((row * p / 4 + col : Nat) : Int) = some rawPixel ∧
          readUINT desktop32 ((row * desktopPitch + col : Nat) : Int) = some d ∧
          readUINT out ((row * w + col : Nat) : Int) = some v ∧
          (rawPixel / 16777216 % 256 ≠ 0 → v = (d ^^^ rawPixel) ||| 0xFF000000) ∧
          (rawPixel / 16777216 % 256 = 0 → v = rawPixel ||| 0xFF000000) ∧
          v / 16777216 % 256 = 0xFF ∧
          (p % 4 = 0 → row * p / 4 + col = row * (p / 4) + col) := by
  obtain ⟨out, hdec, -, hpix⟩ :=
    decodeMaskedColor_pixels w h p desktopPitch apiBuffer desktop32 output32 hout houtl hapi hapil
      hapib hdesk hdeskl hdeskb
  refine ⟨out, hdec, ?_⟩
  intro row col hr hc
  have hraw := hapi row col hr hc
  have hd := hdesk row col hr hc
  have hrl := wordAt_lt hapib hraw
  have hdl := wordAt_lt hdeskb hd
  refine ⟨_, _, _, readUINT_eq_wordAt hraw, readUINT_eq_wordAt hd, hpix row col hr hc, ?_, ?_,
    ?_, ?_⟩
  · intro hne; simp only [maskedColorSpec, if_pos hne]
  · intro he; simp only [maskedColorSpec, he, ne_eq, not_true_eq_false, if_false]
  · unfold maskedColorSpec
    split
    · exact or_hi_mask_alpha (Nat.xor_lt_two_pow (n := 32) hdl hrl)
    · exact or_hi_mask_alpha hrl
  · intro h4
    obtain ⟨q, hq⟩ : ∃ q, p = 4 * q := ⟨p / 4, by omega⟩
    subst hq
    have e1 : row * (4 * q) = 4 * (row * q) := by ring
    rw [Nat.mul_div_cancel_left q (by decide : 0 < 4), e1,
      Nat.mul_div_cancel_left (row * q) (by decide : 0 < 4)]

/-- C2 (as amended) on a 1 x 2 image of pitch 4: one raw pixel with alpha `0xFF` (XOR with
the desktop) and one with alpha `0x00` (replacement). -/
theorem C2_masked_color_decode_witness :
    ∃ out, decodeMaskedColor 1 2 4 1 [1, 2, 3, 0xFF, 4, 5, 6, 0x00] (List.replicate 8 7)
        (List.replicate 8 0) = some out ∧
      readUINT out 0 = some 0xFF040506 ∧ readUINT out 1 = some 0xFF060504 := by
  obtain ⟨out, hdec, hpix⟩ :=
    C2_masked_color_decode 1 2 4 1 [1, 2, 3, 0xFF, 4, 5, 6, 0x00] (List.replicate 8 7)
      (List.replicate 8 0) (by decide) (by decide)
      (by intro row col hr hc; simp only [List.length_cons, List.length_nil]; omega) (by decide)
      (by unfold isBytes; decide)
      (by intro row col hr hc; simp only [List.length_replicate]; omega) (by decide)
      (by unfold isBytes; decide)
  refine ⟨out, hdec, ?_, ?_⟩
  · obtain ⟨raw, d, v, hraw, hd, hv, h1, -, -, -⟩ := hpix 0 0 (by decide) (by decide)
    have er : raw = 0xFF030201 := Option.some.inj (hraw.symm.trans (by decide))
    have ed : d = 0x07070707 := Option.some.inj (hd.symm.trans (by decide))
    subst er ed
    rw [show ((0 : Int) = ((0 * 1 + 0 : Nat) : Int)) by decide, hv, h1 (by decide)]
    decide
  · obtain ⟨raw, d, v, hraw, hd, hv, -, h0, -, -⟩ := hpix 1 0 (by decide) (by decide)
    have er : raw = 0x00060504 := Option.some.inj (hraw.symm.trans (by decide))
    subst er
    rw [show ((1 : Int) = ((1 * 1 + 0 : Nat) : Int)) by decide, hv, h0 (by decide)]
    decide

/-- C2 fails as stated: with pitch 6, row 2 of a 1-pixel-wide image is decoded from raw
word `2 * 6 / 4 = 3`, not from raw word `2 * (6 / 4) = 2`. -/
theorem C2_counterexample :
    ∃ out, decodeMaskedColor 1 3 6 1 (List.range 16) (List.replicate 12 7)
        (List.replicate 12 0) = some out ∧
      readUINT (List.range 16) ((2 * (6 / 4) + 0 : Nat) : Int) = some 0x0B0A0908 ∧
      readUINT (List.replicate 12 7) ((2 * 1 + 0 : Nat) : Int) = some 0x07070707 ∧
      readUINT out ((2 * 1 + 0 : Nat) : Int) = some 0xFF090A0B ∧
      (0xFF090A0B : Nat) ≠ (0x07070707 ^^^ 0x0B0A0908) ||| 0xFF000000 := by
  refine ⟨[7, 6, 5, 255, 3, 2, 1, 255, 11, 10, 9, 255], ?_, ?_, ?_, ?_, ?_⟩ <;> decide

/-- C4 (as amended): when `AcquireNextFrame` times out on a valid display whose session and
texture are non-null, `OnRenderEvent` releases nothing and leaves the display list, the active
mouse display, the timeout and the host pointer as they were, and it overwrites the error
channel: `g_errorCode` is `DXGI_ERROR_WAIT_TIMEOUT` and `g_errorMessage` is the
"Maybe timeout." text, which the following `GetErrorCode` / `GetErrorMessage` return. -/
theorem C4_timeout_overwrites_error_channel (env : Env) (g : Globals) (id : Int)
    (monitor : Monitor) (d t : Nat)
    (hid : IsValidMonitorId g id = true) (hm : g.g_monitors[id.toNat]? = some monitor)
    (hd : monitor.deskDupl = some d) (ht : monitor.texture = some t)
    (hto : env.AcquireNextFrame = DXGI_ERROR_WAIT_TIMEOUT) :
    OnRenderEvent env g id =
        ([Event.AcquireNextFrame d g.g_timeout DXGI_ERROR_WAIT_TIMEOUT],
          some { g with g_errorCode := DXGI_ERROR_WAIT_TIMEOUT,
                        g_errorMessage :=
              "[IDXGIOutputDuplication::AcquireNextFrame()] Maybe timeout." }) ∧
      ∀ g1, (OnRenderEvent env g id).2 = some g1 →
        g1.g_monitors = g.g_monitors ∧ g1.g_mouseMonitor = g.g_mouseMonitor ∧
        g1.g_timeout = g.g_timeout ∧ g1.g_unity = g.g_unity ∧
        (GetErrorCode g1).1 = DXGI_ERROR_WAIT_TIMEOUT ∧
        (GetErrorMessage g1).1 = "[IDXGIOutputDuplication::AcquireNextFrame()] Maybe timeout." := by
  have h : OnRenderEvent env g id =
      ([Event.AcquireNextFrame d g.g_timeout DXGI_ERROR_WAIT_TIMEOUT],
        some { g with g_errorCode := DXGI_ERROR_WAIT_TIMEOUT,
                      g_errorMessage :=
            "[IDXGIOutputDuplication::AcquireNextFrame()] Maybe timeout." }) := by
    have hne : DXGI_ERROR_WAIT_TIMEOUT ≠ DXGI_ERROR_ACCESS_LOST := by decide
    have hf : FAILED DXGI_ERROR_WAIT_TIMEOUT = true := by decide
    simp only [OnRenderEvent, hid, hm, hd, ht, hto, hf, hne, Bool.not_true, Bool.false_eq_true,
      if_false, if_true]
  refine ⟨h, ?_⟩
  intro g1 hg1
  rw [h] at hg1
  cases hg1
  exact ⟨rfl, rfl, rfl, rfl, rfl, rfl⟩

/-- C4 (as amended) on a single display with an empty error channel. -/
theorem C4_timeout_overwrites_error_channel_witness :
    (OnRenderEvent { sampleEnv with AcquireNextFrame := DXGI_ERROR_WAIT_TIMEOUT }
        (sampleGlobals [sampleMonitor 0 (some 5) (some 9)]) 0).2.map GetErrorCode =
      some (DXGI_ERROR_WAIT_TIMEOUT,
        { sampleGlobals [sampleMonitor 0 (some 5) (some 9)] with
          g_errorMessage := "[IDXGIOutputDuplication::AcquireNextFrame()] Maybe timeout." }) := by
  rw [(C4_timeout_overwrites_error_channel
    { sampleEnv with AcquireNextFrame := DXGI_ERROR_WAIT_TIMEOUT }
    (sampleGlobals [sampleMonitor 0 (some 5) (some 9)]) 0 (sampleMonitor 0 (some 5) (some 9)) 5 9
    (by decide) (by decide) rfl rfl rfl).1]
  rfl

/-- C4 fails as stated: a timeout on a display with an empty error channel leaves a nonzero
`g_errorCode` and a nonempty `g_errorMessage`, so the state is not the state before the tick
and `GetErrorCode` no longer returns 0. -/
theorem C4_counterexample :
    (OnRenderEvent { sampleEnv with AcquireNextFrame := DXGI_ERROR_WAIT_TIMEOUT }
        (sampleGlobals [sampleMonitor 0 (some 5) (some 9)]) 0).2 ≠
      some (sampleGlobals [sampleMonitor 0 (some 5) (some 9)]) ∧
    (GetErrorCode (sampleGlobals [sampleMonitor 0 (some 5) (some 9)])).1 = 0 ∧
    (OnRenderEvent { sampleEnv with AcquireNextFrame := DXGI_ERROR_WAIT_TIMEOUT }
        (sampleGlobals [sampleMonitor 0 (some 5) (some 9)]) 0).2.map
          (fun g1 => (GetErrorCode g1).1) = some (-2005270489) := by
  refine ⟨?_, rfl, rfl⟩
  intro h
  have h2 := congrArg (Option.map Globals.g_errorCode) h
  revert h2
  decide

theorem releaseSessions_null {ms : List Monitor} (h : ∃ m ∈ ms, m.deskDupl = none) :
    (releaseSessions ms).2 = false := by
  induction ms with
  | nil => obtain ⟨m, hm, -⟩ := h; cases hm
  | cons a rest ih =>
    obtain ⟨m, hm, hnull⟩ := h
    cases hd : a.deskDupl with
    | none => simp [releaseSessions, hd]
    | some d =>
      simp only [releaseSessions, hd]
      rcases List.mem_cons.mp hm with rfl | hmem
      · rw [hd] at hnull; cases hnull
      · exact ih ⟨m, hmem, hnull⟩

theorem OnRenderEvent_null_session (env : Env) (g : Globals) (id : Int) (monitor : Monitor)
    (hm : g.g_monitors[id.toNat]? = some monitor) (hnull : monitor.deskDupl = none) :
    OnRenderEvent env g id = ([], some g) := by
  unfold OnRenderEvent
  split
  · rfl
  · simp only [hm, hnull]

/-- C7 (what the code does): on a display list in which a display has a null duplication
session, a capture tick on that display is a no-op, but `FinalizeDuplication`, and with it
`InitializeDuplication`, calls `Release` through the null pointer and faults. -/
theorem C7_finalize_faults_on_null_session (env : Env) (g : Globals) (id : Int)
    (monitor : Monitor) (hm : g.g_monitors[id.toNat]? = some monitor)
    (hnull : monitor.deskDupl = none) :
    OnRenderEvent env g id = ([], some g) ∧ (FinalizeDuplication g).2 = none ∧
      (InitializeDuplication env g).2 = none := by
  have hrel : (releaseSessions g.g_monitors).2 = false :=
    releaseSessions_null ⟨monitor, List.getElem?_mem hm, hnull⟩
  have hfin : (FinalizeDuplication g).2 = none := by
    simp [FinalizeDuplication, hrel]
  refine ⟨OnRenderEvent_null_session env g id monitor hm hnull, hfin, ?_⟩
  unfold InitializeDuplication
  split
  · rfl
  · rename_i tr g1 heq
    rw [heq] at hfin
    cases hfin

/-- C7 at a list of two displays, the second recorded with a null session: the tick on it
changes nothing, and the rebuild releases session 5 and then faults. -/
theorem C7_finalize_faults_on_null_session_witness :
    OnRenderEvent sampleEnv
        (sampleGlobals [sampleMonitor 0 (some 5) (some 9), sampleMonitor 1 none (some 8)]) 1 =
      ([], some (sampleGlobals [sampleMonitor 0 (some 5) (some 9), sampleMonitor 1 none (some 8)])) ∧
    FinalizeDuplication
        (sampleGlobals [sampleMonitor 0 (some 5) (some 9), sampleMonitor 1 none (some 8)]) =
      ([Event.Release 5], none) := by
  have h := C7_finalize_faults_on_null_session sampleEnv
    (sampleGlobals [sampleMonitor 0 (some 5) (some 9), sampleMonitor 1 none (some 8)]) 1
    (sampleMonitor 1 none (some 8)) (by decide) rfl
  exact ⟨h.1, rfl⟩

theorem noFrameCalls_append {a b : List Event} (ha : noFrameCalls a) (hb : noFrameCalls b) :
    noFrameCalls (a ++ b) := by
  intro e he
  rcases List.mem_append.mp he with h | h
  · exact ha e h
  · exact hb e h

theorem fetchShape_noFrameCalls (env : Env) (frameInfo : DXGI_OUTDUPL_FRAME_INFO)
    (monitor : Monitor) (pointer : Pointer) (apiBuffer : Buffer) :
    noFrameCalls (fetchShape env frameInfo monitor pointer apiBuffer).1 := by
  unfold fetchShape noFrameCalls
  split
  · split <;> simp [isFrameCall]
  · simp

theorem composite_noFrameCalls (env : Env) (g_unity : Option Nat) (monitor : Monitor)
    (pointer : Pointer) (isMono : Bool) (w h p : Nat) (apiBuffer output32 : Buffer) :
    noFrameCalls (composite env g_unity monitor pointer isMono w h p apiBuffer output32).1 := by
  unfold composite noFrameCalls
  split
  · simp
  · split
    · simp [isFrameCall]
    · split
      · simp [isFrameCall]
      · split
        · simp [isFrameCall]
        · split <;> simp [isFrameCall]

theorem decodeShape_noFrameCalls (env : Env) (g_unity : Option Nat) (monitor : Monitor)
    (pointer : Pointer) (isMono isColorMask : Bool) (apiBuffer : Buffer) :
    noFrameCalls (decodeShape env g_unity monitor pointer isMono isColorMask apiBuffer).1 := by
  unfold decodeShape
  simp only
  split
  · intro e he; cases he
  · split
    · exact composite_noFrameCalls _ _ _ _ _ _ _ _ _ _
    · split <;> (intro e he; cases he)

theorem refreshShape_noFrameCalls (env : Env) (g_unity : Option Nat)
    (frameInfo : DXGI_OUTDUPL_FRAME_INFO) (monitor : Monitor) (pointer : Pointer)
    (isMono isColorMask : Bool) :
    noFrameCalls (refreshShape env g_unity frameInfo monitor pointer isMono isColorMask).1 := by
  unfold refreshShape
  split
  · intro e he; cases he
  · rename_i apiBuffer hbuf
    have hf := fetchShape_noFrameCalls env frameInfo monitor (growApi env frameInfo pointer)
      apiBuffer
    split
    · rename_i tr heq
      rw [heq] at hf; exact hf
    · rename_i tr raw info heq
      rw [heq] at hf
      exact noFrameCalls_append hf (decodeShape_noFrameCalls _ _ _ _ _ _ _)

theorem UpdateMouse_noFrameCalls (env : Env) (g_unity : Option Nat) (g_mouseMonitor : Int)
    (frameInfo : DXGI_OUTDUPL_FRAME_INFO) (monitor : Monitor) :
    noFrameCalls (UpdateMouse env g_unity g_mouseMonitor frameInfo monitor).1 := by
  unfold UpdateMouse
  simp only
  split
  · intro e he; cases he
  · exact refreshShape_noFrameCalls _ _ _ _ _ _ _

theorem releaseSessions_noFrameCalls (ms : List Monitor) :
    noFrameCalls (releaseSessions ms).1 := by
  induction ms with
  | nil => intro e he; cases he
  | cons a rest ih =>
    unfold releaseSessions
    split
    · intro e he; cases he
    · intro e he
      rcases List.mem_cons.mp he with rfl | h
      · rfl
      · exact ih e h

theorem InitializeDuplication_noFrameCalls (env : Env) (g : Globals) :
    noFrameCalls (InitializeDuplication env g).1 := by
  have hfin : noFrameCalls (FinalizeDuplication g).1 := releaseSessions_noFrameCalls _
  unfold InitializeDuplication
  split
  · rename_i tr heq
    rw [heq] at hfin; exact hfin
  · rename_i tr g1 heq
    rw [heq] at hfin
    split
    · exact hfin
    · exact hfin
    · apply noFrameCalls_append hfin
      intro e he
      obtain ⟨r, -, rfl⟩ := List.mem_map.mp he
      rfl

theorem sessionAfter_noFrameCalls {tr : List Event} (h : noFrameCalls tr) (d : Nat)
    (s : SessionState) : sessionAfter d s tr = s := by
  induction tr generalizing s with
  | nil => rfl
  | cons e rest ih =>
    have he := h e (List.mem_cons_self e rest)
    have hrest : noFrameCalls rest := fun x hx => h x (List.mem_cons_of_mem e hx)
    have hstep : sessionStep d s e = s := by
      cases e <;> simp [isFrameCall] at he <;> rfl
    show sessionAfter d (sessionStep d s e) rest = s
    rw [hstep]
    exact ih hrest s

theorem sessionAfter_append (d : Nat) (s : SessionState) (a b : List Event) :
    sessionAfter d s (a ++ b) = sessionAfter d (sessionAfter d s a) b := by
  simp [sessionAfter, List.foldl_append]

theorem releaseCount_noFrameCalls {tr : List Event} (h : noFrameCalls tr) (d : Nat) :
    releaseCount d tr = 0 := by
  unfold releaseCount
  rw [List.count_eq_zero]
  intro hmem
  have := h _ hmem
  simp [isFrameCall] at this

theorem acquireCount_noFrameCalls {tr : List Event} (h : noFrameCalls tr) (d : Nat) :
    acquireCount d tr = 0 := by
  unfold acquireCount
  rw [List.length_eq_zero, List.filter_eq_nil_iff]
  intro e he
  have := h e he
  cases e <;> simp [isFrameCall] at this <;> simp [isAcquired]

theorem releaseCount_append (d : Nat) (a b : List Event) :
    releaseCount d (a ++ b) = releaseCount d a + releaseCount d b := by
  simp [releaseCount, List.count_append]

theorem acquireCount_append (d : Nat) (a b : List Event) :
    acquireCount d (a ++ b) = acquireCount d a + acquireCount d b := by
  simp [acquireCount, List.filter_append]

theorem sessionAfter_cons (d : Nat) (s : SessionState) (e : Event) (tr : List Event) :
    sessionAfter d s (e :: tr) = sessionAfter d (sessionStep d s e) tr := rfl

theorem releaseCount_cons (d : Nat) (e : Event) (tr : List Event) :
    releaseCount d (e :: tr) = releaseCount d tr + (if e = Event.ReleaseFrame d then 1 else 0) := by
  simp [releaseCount, List.count_cons]

theorem acquireCount_cons (d : Nat) (e : Event) (tr : List Event) :
    acquireCount d (e :: tr) = acquireCount d tr + (if isAcquired d e = true then 1 else 0) := by
  unfold acquireCount
  rw [List.filter_cons]
  split <;> simp

/-- A tick whose `AcquireNextFrame` failed: the trace is the failed call followed by calls
outside the frame cycle. -/
theorem pairing_failed (d d0 : Nat) (t hr : Int) (tr : List Event) (hf : hr < 0)
    (htr : noFrameCalls tr) :
    sessionAfter d SessionState.Idle (Event.AcquireNextFrame d0 t hr :: tr) = SessionState.Idle ∧
      releaseCount d (Event.AcquireNextFrame d0 t hr :: tr) =
        acquireCount d (Event.AcquireNextFrame d0 t hr :: tr) ∧
      acquireCount d (Event.AcquireNextFrame d0 t hr :: tr) ≤ 1 := by
  have h1 : sessionStep d SessionState.Idle (Event.AcquireNextFrame d0 t hr) = SessionState.Idle := by
    simp only [sessionStep]
    rw [if_neg (by omega)]
  have h2 : isAcquired d (Event.AcquireNextFrame d0 t hr) = false := by
    simp only [isAcquired]
    have : ¬ (0 ≤ hr) := by omega
    simp [this]
  rw [sessionAfter_cons, h1, sessionAfter_noFrameCalls htr, releaseCount_cons, acquireCount_cons,
    releaseCount_noFrameCalls htr, acquireCount_noFrameCalls htr, h2]
  simp

/-- A tick whose `AcquireNextFrame` succeeded and which returned: the frame is released once,
after calls outside the frame cycle. -/
theorem pairing_succeeded (d d0 : Nat) (t hr : Int) (c : Nat) (tr : List Event) (hs : 0 ≤ hr)
    (htr : noFrameCalls tr) :
    sessionAfter d SessionState.Idle
        (Event.AcquireNextFrame d0 t hr :: Event.CopyResource c ::
          (tr ++ [Event.ResourceRelease, Event.ReleaseFrame d0])) = SessionState.Idle ∧
      releaseCount d
        (Event.AcquireNextFrame d0 t hr :: Event.CopyResource c ::
          (tr ++ [Event.ResourceRelease, Event.ReleaseFrame d0])) =
        acquireCount d
          (Event.AcquireNextFrame d0 t hr :: Event.CopyResource c ::
            (tr ++ [Event.ResourceRelease, Event.ReleaseFrame d0])) ∧
      acquireCount d
        (Event.AcquireNextFrame d0 t hr :: Event.CopyResource c ::
          (tr ++ [Event.ResourceRelease, Event.ReleaseFrame d0])) ≤ 1 := by
  rw [sessionAfter_cons, sessionAfter_cons, sessionAfter_append, sessionAfter_noFrameCalls htr,
    releaseCount_cons, releaseCount_cons, releaseCount_append, releaseCount_noFrameCalls htr,
    acquireCount_cons, acquireCount_cons, acquireCount_append, acquireCount_noFrameCalls htr]
  by_cases hd : d0 = d
  · subst hd
    simp [sessionAfter, sessionStep, releaseCount, acquireCount, isAcquired, hs]
  · have hd' : ¬ (d = d0) := fun h => hd h.symm
    simp [sessionAfter, sessionStep, releaseCount, acquireCount, isAcquired, hd, hd']

/-- C5: with a session modelled as Idle / Acquired, every `OnRenderEvent` call that returns,
or whose `AcquireNextFrame` failed, leaves every session that was Idle in the Idle state, and
calls `ReleaseFrame` on a session as many times as it successfully acquired a frame from
it, which is at most once. -/
theorem C5_acquire_release_pairing (env : Env) (g : Globals) (id : Int)
    (hret : (OnRenderEvent env g id).2 ≠ none ∨ FAILED env.AcquireNextFrame = true) (d : Nat) :
    sessionAfter d SessionState.Idle (OnRenderEvent env g id).1 = SessionState.Idle ∧
      releaseCount d (OnRenderEvent env g id).1 = acquireCount d (OnRenderEvent env g id).1 ∧
      acquireCount d (OnRenderEvent env g id).1 ≤ 1 := by
  have hnil : sessionAfter d SessionState.Idle [] = SessionState.Idle ∧
      releaseCount d [] = acquireCount d [] ∧ acquireCount d [] ≤ 1 := by
    simp [sessionAfter, releaseCount, acquireCount]
  revert hret
  unfold OnRenderEvent
  split
  · exact fun _ => hnil
  · split
    · exact fun _ => hnil
    · rename_i monitor hmon
      split
      · rename_i d0 t hd0 ht
        by_cases hf : FAILED env.AcquireNextFrame = true
        · have hlt : env.AcquireNextFrame < 0 := by simpa [FAILED] using hf
          rw [if_pos hf]
          split
          · exact fun _ => pairing_failed d d0 _ _ _ hlt (InitializeDuplication_noFrameCalls _ _)
          · exact fun _ => pairing_failed d d0 _ _ [] hlt (fun e he => by cases he)
        · have hge : 0 ≤ env.AcquireNextFrame := by
            simp only [FAILED, decide_eq_true_eq] at hf; omega
          rw [if_neg hf]
          split
          · intro hret
            simp [hf] at hret
          · split
            · intro hret
              simp [hf] at hret
            · exact fun _ =>
                pairing_succeeded d d0 _ _ t _ hge (UpdateMouse_noFrameCalls _ _ _ _ _)
      · exact fun _ => hnil

/-- C5 on a successful tick of a single display: one acquire, one release, session 5 Idle
again. -/
theorem C5_acquire_release_pairing_witness :
    (OnRenderEvent sampleEnv (sampleGlobals [sampleMonitor 0 (some 5) (some 9)]) 0).1 =
        [Event.AcquireNextFrame 5 10 0, Event.CopyResource 9, Event.ResourceRelease,
          Event.ReleaseFrame 5] ∧
      sessionAfter 5 SessionState.Idle
        (OnRenderEvent sampleEnv (sampleGlobals [sampleMonitor 0 (some 5) (some 9)]) 0).1 =
          SessionState.Idle ∧
      releaseCount 5
        (OnRenderEvent sampleEnv (sampleGlobals [sampleMonitor 0 (some 5) (some 9)]) 0).1 = 1 := by
  have h := C5_acquire_release_pairing sampleEnv
    (sampleGlobals [sampleMonitor 0 (some 5) (some 9)]) 0 (Or.inl (by decide)) 5
  refine ⟨by decide, h.1, ?_⟩
  rw [h.2.1]
  decide

theorem newBYTE_length (env : Env) (n : Nat) : (newBYTE env n).length = n := by
  simp [newBYTE]

theorem growApi_capacity (env : Env) (frameInfo : DXGI_OUTDUPL_FRAME_INFO) (pointer : Pointer)
    (hwf : pointer.wf) (hsize : frameInfo.PointerShapeBufferSize ≠ 0) :
    ∃ b, (growApi env frameInfo pointer).apiBuffer = some b ∧
      frameInfo.PointerShapeBufferSize ≤ b.length := by
  unfold growApi
  split
  · exact ⟨_, rfl, by rw [newBYTE_length]⟩
  · rename_i hle
    have h1 := hwf.1
    cases hb : pointer.apiBuffer with
    | none => rw [hb] at h1; simp only at h1; omega
    | some b => rw [hb] at h1; simp only at h1; exact ⟨b, rfl, by omega⟩

theorem refreshShape_trace (env : Env) (g_unity : Option Nat)
    (frameInfo : DXGI_OUTDUPL_FRAME_INFO) (monitor : Monitor) (pointer : Pointer)
    (isMono isColorMask : Bool) (d : Nat) (hd : monitor.deskDupl = some d) (hwf : pointer.wf)
    (hsize : frameInfo.PointerShapeBufferSize ≠ 0) :
    ∃ capacity rest,
      (refreshShape env g_unity frameInfo monitor pointer isMono isColorMask).1 =
        Event.GetFramePointerShape d frameInfo.PointerShapeBufferSize capacity :: rest ∧
      frameInfo.PointerShapeBufferSize ≤ capacity ∧ noFrameCalls rest := by
  obtain ⟨b, hb, hcap⟩ := growApi_capacity env frameInfo pointer hwf hsize
  unfold refreshShape
  rw [hb]
  simp only [fetchShape, hsize, ne_eq, not_false_eq_true, if_true, hd]
  cases env.GetFramePointerShape with
  | none => exact ⟨_, _, rfl, hcap, decodeShape_noFrameCalls _ _ _ _ _ _ _⟩
  | some r => exact ⟨_, _, rfl, hcap, decodeShape_noFrameCalls _ _ _ _ _ _ _⟩

/-- C8 (as amended): on a valid display that is the active mouse display after the
visibility update of the tick (the frame reports the pointer visible, or `g_mouseMonitor` is
already its id), whenever `AcquireNextFrame` succeeds and the frame reports a nonzero
`PointerShapeBufferSize`, `OnRenderEvent` calls `GetFramePointerShape` on the same session,
with a raw buffer of at least that many bytes, before any `ReleaseFrame`; and the release
follows when the tick returns. -/
theorem C8_shape_read_on_active_display (env : Env) (g : Globals) (id : Int)
    (monitor : Monitor) (d t u : Nat)
    (hid : IsValidMonitorId g id = true) (hm : g.g_monitors[id.toNat]? = some monitor)
    (hd : monitor.deskDupl = some d) (ht : monitor.texture = some t)
    (hu : g.g_unity = some u) (hwf : monitor.pointer.wf)
    (hacq : FAILED env.AcquireNextFrame = false)
    (hsize : env.frameInfo.PointerShapeBufferSize ≠ 0)
    (hactive : env.frameInfo.Visible = true ∨ g.g_mouseMonitor = monitor.id) :
    ∃ capacity before after,
      (OnRenderEvent env g id).1 =
        before ++ Event.GetFramePointerShape d env.frameInfo.PointerShapeBufferSize capacity ::
          after ∧
      env.frameInfo.PointerShapeBufferSize ≤ capacity ∧
      (∀ d1, Event.ReleaseFrame d1 ∉ before) ∧
      ((OnRenderEvent env g id).2 ≠ none → Event.ReleaseFrame d ∈ after) := by
  have hact : activeMonitor (movePointer env.frameInfo monitor.pointer) monitor g.g_mouseMonitor =
      monitor.id := by
    unfold activeMonitor movePointer
    rcases hactive with h | h
    · simp [h]
    · simp [h]
  have hwf' : (movePointer env.frameInfo monitor.pointer).wf := hwf
  obtain ⟨capacity, rest, htr, hcap, hrest⟩ :=
    refreshShape_trace env (some u) env.frameInfo monitor
      (movePointer env.frameInfo monitor.pointer)
      ((movePointer env.frameInfo monitor.pointer).shapeInfo.Type_ ==
        DXGI_OUTDUPL_POINTER_SHAPE_TYPE_MONOCHROME)
      ((movePointer env.frameInfo monitor.pointer).shapeInfo.Type_ ==
        DXGI_OUTDUPL_POINTER_SHAPE_TYPE_MASKED_COLOR) d hd hwf' hsize
  have hum : (UpdateMouse env (some u) g.g_mouseMonitor env.frameInfo monitor).1 =
      Event.GetFramePointerShape d env.frameInfo.PointerShapeBufferSize capacity :: rest := by
    simp only [UpdateMouse, hact, ne_eq, not_true_eq_false, if_false]
    exact htr
  refine ⟨capacity, [Event.AcquireNextFrame d g.g_timeout env.AcquireNextFrame,
    Event.CopyResource t], ?_⟩
  simp only [OnRenderEvent, hid, hm, hd, ht, hu, hacq, Bool.not_true, Bool.false_eq_true,
    if_false]
  cases hres : (UpdateMouse env (some u) g.g_mouseMonitor env.frameInfo monitor).2 with
  | none =>
    refine ⟨rest, by simp [hum], hcap, ?_, ?_⟩
    · intro d1 he; simp at he
    · intro h; exact absurd rfl h
  | some r =>
    obtain ⟨ok, monitor1, mm⟩ := r
    refine ⟨rest ++ [Event.ResourceRelease, Event.ReleaseFrame d], by simp [hum], hcap, ?_, ?_⟩
    · intro d1 he; simp at he
    · intro _; simp

/-- C8 (as amended) on a single display that reports the pointer visible with a 4-byte
shape. -/
theorem C8_shape_read_on_active_display_witness :
    ∃ capacity before after,
      (OnRenderEvent (sampleFrame true 4 (some ([1, 2, 3, 4], ⟨2, 1, 1, 4⟩)))
          (sampleGlobals [sampleMonitor 0 (some 5) (some 9)]) 0).1 =
        before ++ Event.GetFramePointerShape 5 4 capacity :: after ∧
      4 ≤ capacity ∧ (∀ d1, Event.ReleaseFrame d1 ∉ before) ∧
      ((OnRenderEvent (sampleFrame true 4 (some ([1, 2, 3, 4], ⟨2, 1, 1, 4⟩)))
          (sampleGlobals [sampleMonitor 0 (some 5) (some 9)]) 0).2 ≠ none →
        Event.ReleaseFrame 5 ∈ after) :=
  C8_shape_read_on_active_display (sampleFrame true 4 (some ([1, 2, 3, 4], ⟨2, 1, 1, 4⟩)))
    (sampleGlobals [sampleMonitor 0 (some 5) (some 9)]) 0 (sampleMonitor 0 (some 5) (some 9))
    5 9 1 (by decide) rfl rfl rfl rfl ⟨rfl, rfl⟩ (by decide) (by decide) (Or.inl rfl)

/-- C8 fails as stated: with display 0 the active mouse display, a successful tick on display
1 whose frame announces a 16-byte shape and a hidden pointer releases the frame without any
`GetFramePointerShape` call. -/
theorem C8_counterexample :
    (OnRenderEvent (sampleFrame false 16 (some (List.replicate 16 0, ⟨2, 2, 2, 8⟩)))
        (sampleGlobals [sampleMonitor 0 (some 5) (some 9), sampleMonitor 1 (some 6) (some 8)])
        1).1 =
      [Event.AcquireNextFrame 6 10 0, Event.CopyResource 8, Event.ResourceRelease,
        Event.ReleaseFrame 6] ∧
    IsValidMonitorId
      (sampleGlobals [sampleMonitor 0 (some 5) (some 9), sampleMonitor 1 (some 6) (some 8)]) 1 =
        true ∧
    (sampleFrame false 16 (some (List.replicate 16 0, ⟨2, 2, 2, 8⟩))).AcquireNextFrame = 0 ∧
    (sampleFrame false 16
      (some (List.replicate 16 0, ⟨2, 2, 2, 8⟩))).frameInfo.PointerShapeBufferSize = 16 := by
  decide

/-- C10 (what the code does): when the shape changes from colour to monochrome, the tick that
retrieves the monochrome descriptor (8 x 1, raw height 2) still decodes with the colour branch
chosen from the previous type and with the raw height 2 unhalved: no staging texture is
created or mapped, all 2 x 8 x 4 = 64 decoded bytes are the raw bytes, while the descriptor
stored is monochrome and `GetPointerShapeHeight` returns 1 after the tick. -/
theorem C10_stale_type_selects_branch :
    (OnRenderEvent monochromeShapeFrame (sampleGlobals [colorShapeMonitor]) 0).1 =
      [Event.AcquireNextFrame 5 10 0, Event.CopyResource 9, Event.GetFramePointerShape 5 2 64,
        Event.ResourceRelease, Event.ReleaseFrame 5] ∧
    (OnRenderEvent monochromeShapeFrame (sampleGlobals [colorShapeMonitor]) 0).2.map
        (fun g1 => g1.g_monitors.map (fun m => m.pointer.shapeInfo)) =
      some [{ Type_ := DXGI_OUTDUPL_POINTER_SHAPE_TYPE_MONOCHROME, Width := 8, Height := 2,
              Pitch := 1 }] ∧
    (OnRenderEvent monochromeShapeFrame (sampleGlobals [colorShapeMonitor]) 0).2.map
        (fun g1 => g1.g_monitors.map (fun m => m.pointer.bgra32Buffer)) =
      some [some ([0x00, 0xFF] ++ (List.range 64).drop 2)] ∧
    (OnRenderEvent monochromeShapeFrame (sampleGlobals [colorShapeMonitor]) 0).2.map
        (fun g1 => g1.g_monitors.map (fun m => m.pointer.apiBuffer)) =
      some [some ([0x00, 0xFF] ++ (List.range 64).drop 2)] ∧
    (OnRenderEvent monochromeShapeFrame (sampleGlobals [colorShapeMonitor]) 0).2.map
        (fun g1 => GetPointerShapeHeight g1 0) = some 1 := by
  decide

/-- What a tick whose `AcquireNextFrame` succeeded leaves behind when it returns: either
nothing changes, or the display addressed gets a new pointer record and `g_mouseMonitor`
its value after the visibility check; on a display that is not the active one the new
pointer record is the old one moved. -/
theorem OnRenderEvent_success_state (env : Env) (g : Globals) (id : Int) (g1 : Globals)
    (hacq : FAILED env.AcquireNextFrame = false) (h : (OnRenderEvent env g id).2 = some g1) :
    g1 = g ∨
      ∃ monitor p, g.g_monitors[id.toNat]? = some monitor ∧ 0 ≤ id ∧
        g1.g_monitors = g.g_monitors.set id.toNat { monitor with pointer := p } ∧
        g1.g_mouseMonitor =
          activeMonitor (movePointer env.frameInfo monitor.pointer) monitor g.g_mouseMonitor ∧
        (activeMonitor (movePointer env.frameInfo monitor.pointer) monitor g.g_mouseMonitor ≠
            monitor.id → p = movePointer env.frameInfo monitor.pointer) := by
  revert h
  unfold OnRenderEvent
  split
  · intro h; left; cases h; rfl
  · rename_i hvalid
    have hid : 0 ≤ id := by
      simp only [IsValidMonitorId, Bool.not_eq_true', Bool.and_eq_false_imp, decide_eq_true_eq,
        decide_eq_false_iff_not, not_forall, not_not] at hvalid
      by_contra hneg
      simp [IsValidMonitorId, hneg] at hvalid
    split
    · intro h; cases h
    · rename_i monitor hmon
      split
      · rename_i d t hd ht
        rw [hacq]
        simp only [Bool.false_eq_true, if_false]
        cases hu : g.g_unity with
        | none => intro h; cases h
        | some u =>
          simp only
          cases hres : (UpdateMouse env (some u) g.g_mouseMonitor env.frameInfo monitor).2 with
          | none => intro h; cases h
          | some r =>
            obtain ⟨ok, monitor1, mm⟩ := r
            intro h
            simp only [Option.some.injEq] at h
            subst h
            right
            unfold UpdateMouse at hres
            simp only at hres
            split at hres
            · rename_i hne
              simp only [Option.some.injEq, Prod.mk.injEq] at hres
              obtain ⟨-, hm1, hmm⟩ := hres
              subst hm1 hmm
              exact ⟨monitor, _, hmon, hid, rfl, rfl, fun _ => rfl⟩
            · rename_i heq
              simp only [Option.map_eq_some'] at hres
              obtain ⟨r, -, hr⟩ := hres
              simp only [Prod.mk.injEq] at hr
              obtain ⟨-, hm1, hmm⟩ := hr
              subst hm1 hmm
              exact ⟨monitor, _, hmon, hid, rfl, rfl, fun hne => absurd hne heq⟩
      · intro h; left; cases h; rfl

theorem samePointerShape_refl (m : Monitor) : samePointerShape m m := by
  cases m; rfl

theorem samePointerShape_move {m m1 : Monitor} (frameInfo : DXGI_OUTDUPL_FRAME_INFO)
    (h : samePointerShape m m1) :
    samePointerShape m { m1 with pointer := movePointer frameInfo m1.pointer } := by
  unfold samePointerShape at h ⊢
  rw [h]
  rfl

theorem wfIds_set {ms : List Monitor} (hwf : wfIds ms) (k : Nat) (m m1 : Monitor)
    (hk : ms[k]? = some m) (hid : m1.id = m.id) : wfIds (ms.set k m1) := by
  intro j x hx
  by_cases hjk : k = j
  · subst hjk
    have hlt : k < ms.length := by
      by_contra hge
      rw [List.getElem?_eq_none (by omega)] at hk
      cases hk
    rw [List.getElem?_set_self hlt] at hx
    cases hx
    rw [hid]
    exact hwf k m hk
  · rw [List.getElem?_set_ne hjk] at hx
    exact hwf j x hx

/-- One tick keeps the invariant: a tick on `D`, or a tick on another display whose frame
reports the pointer hidden. -/
theorem activeInv_step (D : Nat) (g0 g g1 : Globals) (env : Env) (id : Int)
    (hinv : activeInv D g0 g) (hacq : FAILED env.AcquireNextFrame = false)
    (hvis : id ≠ (D : Int) → env.frameInfo.Visible = false)
    (h : (OnRenderEvent env g id).2 = some g1) : activeInv D g0 g1 := by
  obtain ⟨hmm, hlen, hwf, hsame⟩ := hinv
  rcases OnRenderEvent_success_state env g id g1 hacq h with rfl | ⟨monitor, p, hmon, hid, hms, hact,
    hp⟩
  · exact ⟨hmm, hlen, hwf, hsame⟩
  · have hmid : monitor.id = id := by
      rw [hwf id.toNat monitor hmon]
      exact Int.toNat_of_nonneg hid
    by_cases hidD : id = (D : Int)
    · -- the tick is on `D`
      have hnat : id.toNat = D := by rw [hidD]; exact Int.toNat_ofNat D
      have hactD : activeMonitor (movePointer env.frameInfo monitor.pointer) monitor
          g.g_mouseMonitor = (D : Int) := by
        unfold activeMonitor
        split
        · rw [hmid, hidD]
        · exact hmm
      refine ⟨by rw [hact, hactD], by rw [hms, List.length_set, hlen], ?_, ?_⟩
      · rw [hms]; exact wfIds_set hwf _ monitor _ hmon rfl
      · intro k m m1 hk hm hm1
        rw [hms, hnat, List.getElem?_set_ne (fun e => hk e.symm)] at hm1
        exact hsame k m m1 hk hm hm1
    · -- the tick is on another display, with the pointer hidden
      have hv := hvis hidD
      have hactD : activeMonitor (movePointer env.frameInfo monitor.pointer) monitor
          g.g_mouseMonitor = (D : Int) := by
        simp [activeMonitor, movePointer, hv, hmm]
      have hne : activeMonitor (movePointer env.frameInfo monitor.pointer) monitor
          g.g_mouseMonitor ≠ monitor.id := by
        rw [hactD, hmid]; exact fun e => hidD e.symm
      have hpe := hp hne
      subst hpe
      refine ⟨by rw [hact, hactD], by rw [hms, List.length_set, hlen], ?_, ?_⟩
      · rw [hms]; exact wfIds_set hwf _ monitor _ hmon rfl
      · intro k m m1 hk hm hm1
        rw [hms] at hm1
        by_cases hkid : id.toNat = k
        · subst hkid
          have hlt : id.toNat < g.g_monitors.length := by
            by_contra hge
            rw [List.getElem?_eq_none (by omega)] at hmon
            cases hmon
          rw [List.getElem?_set_self hlt] at hm1
          cases hm1
          exact samePointerShape_move env.frameInfo (hsame _ m monitor hk hm hmon)
        · rw [List.getElem?_set_ne hkid] at hm1
          exact hsame k m m1 hk hm hm1

theorem activeInv_run (D : Nat) (g0 : Globals) (ticks : List (Env × Int)) :
    ∀ (g g1 : Globals), activeInv D g0 g →
      (∀ tk ∈ ticks, FAILED tk.1.AcquireNextFrame = false ∧
        (tk.2 ≠ (D : Int) → tk.1.frameInfo.Visible = false)) →
      runTicks g ticks = some g1 → activeInv D g0 g1 := by
  induction ticks with
  | nil =>
    intro g g1 hinv _ hrun
    simp only [runTicks, Option.some.injEq] at hrun
    subst hrun
    exact hinv
  | cons tk rest ih =>
    intro g g1 hinv hticks hrun
    obtain ⟨env, id⟩ := tk
    simp only [runTicks] at hrun
    cases hstep : (OnRenderEvent env g id).2 with
    | none => rw [hstep] at hrun; cases hrun
    | some g2 =>
      rw [hstep] at hrun
      have h1 := hticks (env, id) (List.mem_cons_self _ _)
      exact ih g2 g1 (activeInv_step D g0 g g2 env id hinv h1.1 h1.2 hstep)
        (fun tk htk => hticks tk (List.mem_cons_of_mem _ htk)) hrun

/-- A tick on a display with a session and a texture, whose `AcquireNextFrame` succeeded and
which returned, has run `UpdateMouse` on that display. -/
theorem OnRenderEvent_live_state (env : Env) (g : Globals) (id : Int) (g1 : Globals)
    (monitor : Monitor) (d t u : Nat)
    (hid : IsValidMonitorId g id = true) (hm : g.g_monitors[id.toNat]? = some monitor)
    (hd : monitor.deskDupl = some d) (ht : monitor.texture = some t) (hu : g.g_unity = some u)
    (hacq : FAILED env.AcquireNextFrame = false) (h : (OnRenderEvent env g id).2 = some g1) :
    ∃ p, g1.g_monitors = g.g_monitors.set id.toNat { monitor with pointer := p } ∧
      g1.g_mouseMonitor =
        activeMonitor (movePointer env.frameInfo monitor.pointer) monitor g.g_mouseMonitor := by
  revert h
  simp only [OnRenderEvent, hid, hm, hd, ht, hu, hacq, Bool.not_true, Bool.false_eq_true,
    if_false]
  cases hres : (UpdateMouse env (some u) g.g_mouseMonitor env.frameInfo monitor).2 with
  | none => intro h; cases h
  | some r =>
    obtain ⟨ok, monitor1, mm⟩ := r
    intro h
    simp only [Option.some.injEq] at h
    subst h
    unfold UpdateMouse at hres
    simp only at hres
    split at hres
    · simp only [Option.some.injEq, Prod.mk.injEq] at hres
      obtain ⟨-, hm1, hmm⟩ := hres
      subst hm1 hmm
      exact ⟨movePointer env.frameInfo monitor.pointer, by rw [← hd, ← ht], rfl⟩
    · simp only [Option.map_eq_some'] at hres
      obtain ⟨r, -, hr⟩ := hres
      simp only [Prod.mk.injEq] at hr
      obtain ⟨-, hm1, hmm⟩ := hr
      subst hm1 hmm
      exact ⟨r.2, by rw [← hd, ← ht], rfl⟩

/-- C6: in every run of ticks that starts with a successful tick on display `D` reporting the
pointer visible and continues with ticks whose `AcquireNextFrame` succeeds and none of which,
on another display, reports the pointer visible, `g_mouseMonitor` is the id of `D` at the end,
and every other display has its raw shape buffer, its decoded BGRA32 buffer, their sizes and
its shape descriptor as before the run: it differs at most in the visibility flag and
position of its pointer, whatever shape-buffer sizes its frames reported. -/
theorem C6_active_mouse_display (g g1 : Globals) (D : Nat) (env0 : Env)
    (ticks : List (Env × Int)) (monitor : Monitor) (d t u : Nat)
    (hwf : wfIds g.g_monitors) (hm : g.g_monitors[D]? = some monitor)
    (hd : monitor.deskDupl = some d) (ht : monitor.texture = some t) (hu : g.g_unity = some u)
    (hacq0 : FAILED env0.AcquireNextFrame = false) (hvis0 : env0.frameInfo.Visible = true)
    (hticks : ∀ tk ∈ ticks, FAILED tk.1.AcquireNextFrame = false ∧
      (tk.2 ≠ (D : Int) → tk.1.frameInfo.Visible = false))
    (hrun : runTicks g ((env0, (D : Int)) :: ticks) = some g1) :
    g1.g_mouseMonitor = monitor.id ∧ g1.g_monitors.length = g.g_monitors.length ∧
      ∀ (k : Nat) (m m1 : Monitor), k ≠ D → g.g_monitors[k]? = some m →
        g1.g_monitors[k]? = some m1 →
          m1.pointer.apiBuffer = m.pointer.apiBuffer ∧
          m1.pointer.apiBufferSize = m.pointer.apiBufferSize ∧
          m1.pointer.bgra32Buffer = m.pointer.bgra32Buffer ∧
          m1.pointer.bgra32BufferSize = m.pointer.bgra32BufferSize ∧
          m1.pointer.shapeInfo = m.pointer.shapeInfo ∧ samePointerShape m m1 := by
  have hmid : monitor.id = (D : Int) := hwf D monitor hm
  have hlt : D < g.g_monitors.length := by
    by_contra hge
    rw [List.getElem?_eq_none (by omega)] at hm
    cases hm
  have hvalid : IsValidMonitorId g (D : Int) = true := by
    simp [IsValidMonitorId, hlt]
  simp only [runTicks] at hrun
  cases hstep : (OnRenderEvent env0 g (D : Int)).2 with
  | none => rw [hstep] at hrun; cases hrun
  | some g2 =>
    rw [hstep] at hrun
    obtain ⟨p, hms, hact⟩ := OnRenderEvent_live_state env0 g (D : Int) g2 monitor d t u hvalid
      (by simpa using hm) hd ht hu hacq0 hstep
    have hinv2 : activeInv D g g2 := by
      refine ⟨?_, ?_, ?_, ?_⟩
      · rw [hact]; simp [activeMonitor, movePointer, hvis0, hmid]
      · rw [hms, List.length_set]
      · rw [hms]; exact wfIds_set hwf _ monitor _ (by simpa using hm) rfl
      · intro k m m1 hk hkm hkm1
        rw [hms, Int.toNat_ofNat, List.getElem?_set_ne (fun e => hk e.symm), hkm] at hkm1
        cases hkm1
        exact samePointerShape_refl m
    obtain ⟨hmm, hlen, -, hsame⟩ := activeInv_run D g ticks g2 g1 hinv2 hticks hrun
    refine ⟨by rw [hmm, hmid], hlen, ?_⟩
    intro k m m1 hk hkm hkm1
    have hs := hsame k m m1 hk hkm hkm1
    have hs' := hs
    unfold samePointerShape at hs'
    refine ⟨?_, ?_, ?_, ?_, ?_, hs⟩ <;> (rw [hs'])

/-- C6 on two displays: display 1 reports the pointer visible, then display 0 ticks with a
hidden pointer and an announced 16-byte shape, then display 1 ticks again; display 0 keeps
its (absent) buffers and its descriptor. -/
theorem C6_active_mouse_display_witness :
    ∃ g1,
      runTicks
          (sampleGlobals [sampleMonitor 0 (some 5) (some 9), sampleMonitor 1 (some 6) (some 8)])
          [(sampleFrame true 4 (some ([1, 2, 3, 4], ⟨2, 1, 1, 4⟩)), 1),
            (sampleFrame false 16 (some (List.replicate 16 0, ⟨2, 2, 2, 8⟩)), 0),
            (sampleFrame false 0 none, 1)] = some g1 ∧
      g1.g_mouseMonitor = 1 ∧
      ∀ m1, g1.g_monitors[0]? = some m1 →
        m1.pointer.apiBuffer = none ∧ m1.pointer.bgra32Buffer = none ∧
          m1.pointer.shapeInfo = ⟨0, 0, 0, 0⟩ := by
  cases hrun : runTicks
      (sampleGlobals [sampleMonitor 0 (some 5) (some 9), sampleMonitor 1 (some 6) (some 8)])
      [(sampleFrame true 4 (some ([1, 2, 3, 4], ⟨2, 1, 1, 4⟩)), 1),
        (sampleFrame false 16 (some (List.replicate 16 0, ⟨2, 2, 2, 8⟩)), 0),
        (sampleFrame false 0 none, 1)] with
  | none => exact absurd hrun (by decide)
  | some g1 =>
    have h := C6_active_mouse_display
      (sampleGlobals [sampleMonitor 0 (some 5) (some 9), sampleMonitor 1 (some 6) (some 8)]) g1 1
      (sampleFrame true 4 (some ([1, 2, 3, 4], ⟨2, 1, 1, 4⟩)))
      [(sampleFrame false 16 (some (List.replicate 16 0, ⟨2, 2, 2, 8⟩)), 0),
        (sampleFrame false 0 none, 1)]
      (sampleMonitor 1 (some 6) (some 8)) 6 8 1
      (by
        intro k m hk
        match k with
        | 0 => simp [sampleGlobals] at hk; subst hk; rfl
        | 1 => simp [sampleGlobals] at hk; subst hk; rfl
        | k + 2 => simp [sampleGlobals] at hk)
      rfl rfl rfl rfl (by decide) rfl
      (by
        intro tk htk
        simp only [List.mem_cons, List.mem_singleton, List.not_mem_nil, or_false] at htk
        rcases htk with rfl | rfl
        · exact ⟨by decide, fun _ => rfl⟩
        · exact ⟨by decide, fun _ => rfl⟩)
      hrun
    refine ⟨g1, rfl, h.1, ?_⟩
    intro m1 hm1
    obtain ⟨h1, -, h3, -, h5, -⟩ := h.2.2 0 (sampleMonitor 0 (some 5) (some 9)) m1 (by decide) rfl hm1
    exact ⟨h1, h3, h5⟩

theorem enumerate_wfIds (outs : List OutputReply) :
    ∀ (ms : List Monitor), wfIds ms → wfIds (enumerate outs (ms.length : Int) ms).2 := by
  induction outs with
  | nil => intro ms h; exact h
  | cons o rest ih =>
    intro ms h
    have hwf : wfIds (ms ++ [newMonitor (ms.length : Int) o]) := by
      intro k m hk
      by_cases hlt : k < ms.length
      · rw [List.getElem?_append_left hlt] at hk
        exact h k m hk
      · by_cases heq : k = ms.length
        · subst heq
          simp at hk
          subst hk
          rfl
        · rw [List.getElem?_eq_none (by simp; omega)] at hk
          cases hk
    have := ih (ms ++ [newMonitor (ms.length : Int) o]) hwf
    simp only [List.length_append, List.length_singleton, Nat.cast_add, Nat.cast_one] at this
    exact this

/-- Enumeration numbers the displays by their index: after `InitializeDuplication` every
display carries its index as its id. -/
theorem InitializeDuplication_wfIds (env : Env) (g g1 : Globals)
    (h : (InitializeDuplication env g).2 = some g1) : wfIds g1.g_monitors := by
  have hnil : wfIds ([] : List Monitor) := by intro k m hk; simp at hk
  revert h
  unfold InitializeDuplication FinalizeDuplication
  split
  · intro h; cases h
  · rename_i tr g2 heq
    simp only [Prod.mk.injEq] at heq
    obtain ⟨-, hg2⟩ := heq
    split at hg2
    · cases hg2
      split
      · intro h; cases h; exact hnil
      · intro h; cases h
      · intro h; cases h
        exact enumerate_wfIds _ [] hnil
    · cases hg2

theorem forRange_preserves {σ : Type} (P : σ → Prop) (body : Nat → σ → Option σ)
    (hbody : ∀ i s s1, body i s = some s1 → P s → P s1) :
    ∀ (n : Nat) (s s1 : σ), forRange n body s = some s1 → P s → P s1 := by
  intro n
  induction n with
  | zero =>
    intro s s1 h hp
    rw [forRange_zero] at h
    cases h
    exact hp
  | succ n ih =>
    intro s s1 h hp
    rw [forRange_succ] at h
    cases hmid : forRange n body s with
    | none => rw [hmid] at h; cases h
    | some t =>
      rw [hmid] at h
      exact hbody n t s1 h (ih s t hmid hp)

theorem writeUINT_length_eq {b b1 : Buffer} {i : Int} {v : Nat}
    (h : writeUINT b i v = some b1) : b1.length = b.length := by
  unfold writeUINT at h
  split at h
  · cases h
  · split at h
    · cases h; simp
    · cases h

theorem monoPixel_length {w h p dp : Nat} {api desk : Buffer} {row col : Nat}
    {st st1 : Nat × Buffer} (hs : monoPixel w h p dp api desk row col st = some st1) :
    st1.2.length = st.2.length := by
  simp only [monoPixel, Option.bind_eq_bind, Option.pure_def, Option.bind_eq_some] at hs
  obtain ⟨a, -, x, -, d, -, out, hw, hst⟩ := hs
  cases hst
  exact writeUINT_length_eq hw

theorem decodeMonochrome_length {w h p dp : Nat} {api desk out out1 : Buffer}
    (hs : decodeMonochrome w h p dp api desk out = some out1) : out1.length = out.length := by
  refine forRange_preserves (fun (o : Buffer) => o.length = out.length) _ ?_ h out out1 hs rfl
  intro row o o1 hrow ho
  simp only [monoRow, Option.map_eq_some'] at hrow
  obtain ⟨st, hst, rfl⟩ := hrow
  have := forRange_preserves (fun (s : Nat × Buffer) => s.2.length = out.length) _
    (fun col s s1 hb hp => (monoPixel_length hb).trans hp) w (0x80, o) st hst ho
  exact this

theorem maskedPixel_length {w p dp : Nat} {api desk : Buffer} {row col : Nat}
    {out out1 : Buffer} (hs : maskedPixel w p dp api desk row col out = some out1) :
    out1.length = out.length := by
  simp only [maskedPixel, Option.bind_eq_bind, Option.bind_eq_some] at hs
  obtain ⟨raw, -, hs⟩ := hs
  split at hs
  · simp only [Option.bind_eq_some] at hs
    obtain ⟨d, -, hw⟩ := hs
    exact writeUINT_length_eq hw
  · exact writeUINT_length_eq hs

theorem decodeMaskedColor_length {w h p dp : Nat} {api desk out out1 : Buffer}
    (hs : decodeMaskedColor w h p dp api desk out = some out1) : out1.length = out.length := by
  refine forRange_preserves (fun (o : Buffer) => o.length = out.length) _ ?_ h out out1 hs rfl
  intro row o o1 hrow ho
  exact forRange_preserves (fun (s : Buffer) => s.length = out.length) _
    (fun col s s1 hb hp => (maskedPixel_length hb).trans hp) w o o1 hrow ho

theorem decodeColor_length {w h : Nat} {api out out1 : Buffer}
    (hs : decodeColor w h api out = some out1) : out1.length = out.length := by
  refine forRange_preserves (fun (o : Buffer) => o.length = out.length) _ ?_ _ out out1 hs rfl
  intro i o o1 hb ho
  simp only [colorPixel, Option.bind_eq_bind, Option.bind_eq_some] at hb
  obtain ⟨v, -, hw⟩ := hb
  exact (writeUINT_length_eq hw).trans ho

theorem storePayload_length (size : Nat) (payload buf : Buffer) (h : size ≤ buf.length) :
    (storePayload size payload buf).length = buf.length := by
  simp only [storePayload, List.length_append, List.length_take, List.length_drop]
  omega

theorem growApi_wf (env : Env) (frameInfo : DXGI_OUTDUPL_FRAME_INFO) (pointer : Pointer)
    (hwf : pointer.wf) : (growApi env frameInfo pointer).wf := by
  unfold growApi
  split
  · exact ⟨newBYTE_length _ _, hwf.2⟩
  · exact hwf

theorem growApi_size (env : Env) (frameInfo : DXGI_OUTDUPL_FRAME_INFO) (pointer : Pointer) :
    frameInfo.PointerShapeBufferSize ≤ (growApi env frameInfo pointer).apiBufferSize := by
  unfold growApi
  split
  · exact Nat.le_refl _
  · omega

theorem growBgra32_wf (env : Env) (pointer : Pointer) (n : Nat) (hwf : pointer.wf) :
    (growBgra32 env pointer n).wf := by
  unfold growBgra32
  split
  · exact ⟨hwf.1, newBYTE_length _ _⟩
  · exact hwf

theorem wf_setBgra {pointer : Pointer} {b out : Buffer} (hwf : pointer.wf)
    (hb : pointer.bgra32Buffer = some b) (hlen : out.length = b.length) :
    ({ pointer with bgra32Buffer := some out } : Pointer).wf := by
  refine ⟨hwf.1, ?_⟩
  have h2 := hwf.2
  rw [hb] at h2
  simp only at h2 ⊢
  omega

theorem composite_wf (env : Env) (g_unity : Option Nat) (monitor : Monitor) (pointer : Pointer)
    (isMono : Bool) (w h p : Nat) (apiBuffer output32 : Buffer) (ok : Bool) (p1 : Pointer)
    (hwf : pointer.wf) (hb : pointer.bgra32Buffer = some output32)
    (hres : (composite env g_unity monitor pointer isMono w h p apiBuffer output32).2 =
      some (ok, p1)) : p1.wf := by
  unfold composite at hres
  split at hres
  · cases hres
  · split at hres
    · cases hres; exact hwf
    · split at hres
      · cases hres; exact hwf
      · split at hres
        · cases hres; exact hwf
        · split at hres
          · cases hres
          · rename_i out hdec
            cases hres
            refine wf_setBgra hwf hb ?_
            cases isMono with
            | true => exact decodeMonochrome_length hdec
            | false => exact decodeMaskedColor_length hdec

theorem decodeShape_wf (env : Env) (g_unity : Option Nat) (monitor : Monitor) (pointer : Pointer)
    (isMono isColorMask : Bool) (apiBuffer : Buffer) (ok : Bool) (p1 : Pointer)
    (hwf : pointer.wf)
    (hres : (decodeShape env g_unity monitor pointer isMono isColorMask apiBuffer).2 =
      some (ok, p1)) : p1.wf := by
  unfold decodeShape at hres
  simp only at hres
  split at hres
  · cases hres; exact growBgra32_wf _ _ _ hwf
  · rename_i output32 hb
    split at hres
    · exact composite_wf _ _ _ _ _ _ _ _ _ _ ok p1 (growBgra32_wf _ _ _ hwf) hb hres
    · split at hres
      · cases hres
      · rename_i out hdec
        cases hres
        exact wf_setBgra (growBgra32_wf _ _ _ hwf) hb (decodeColor_length hdec)

theorem refreshShape_wf (env : Env) (g_unity : Option Nat)
    (frameInfo : DXGI_OUTDUPL_FRAME_INFO) (monitor : Monitor) (pointer : Pointer)
    (isMono isColorMask : Bool) (ok : Bool) (p1 : Pointer) (hwf : pointer.wf)
    (hres : (refreshShape env g_unity frameInfo monitor pointer isMono isColorMask).2 =
      some (ok, p1)) : p1.wf := by
  have hg := growApi_wf env frameInfo pointer hwf
  have hsz := growApi_size env frameInfo pointer
  unfold refreshShape at hres
  split at hres
  · cases hres; exact hg
  · rename_i apiBuffer hbuf
    have hlen : apiBuffer.length = (growApi env frameInfo pointer).apiBufferSize := by
      have h1 := hg.1
      rw [hbuf] at h1
      exact h1
    split at hres
    · cases hres
    · rename_i tr raw info hfetch
      simp only at hres
      refine decodeShape_wf _ _ _ _ _ _ _ ok p1 ?_ hres
      refine ⟨?_, hg.2⟩
      show raw.length = (growApi env frameInfo pointer).apiBufferSize
      unfold fetchShape at hfetch
      split at hfetch
      · split at hfetch
        · cases hfetch
        · simp only [Prod.mk.injEq] at hfetch
          obtain ⟨-, hf2⟩ := hfetch
          split at hf2
          · cases hf2; exact hlen
          · cases hf2
            rw [storePayload_length _ _ _ (by omega)]
            exact hlen
      · cases hfetch; exact hlen

/-- The recorded buffer sizes stay the extents of the buffers across `UpdateMouse`. -/
theorem UpdateMouse_wf (env : Env) (g_unity : Option Nat) (g_mouseMonitor : Int)
    (frameInfo : DXGI_OUTDUPL_FRAME_INFO) (monitor : Monitor) (ok : Bool) (m1 : Monitor)
    (mm : Int) (hwf : monitor.pointer.wf)
    (hres : (UpdateMouse env g_unity g_mouseMonitor frameInfo monitor).2 = some (ok, m1, mm)) :
    m1.pointer.wf := by
  have hmove : (movePointer frameInfo monitor.pointer).wf := hwf
  unfold UpdateMouse at hres
  simp only at hres
  split at hres
  · cases hres; exact hmove
  · simp only [Option.map_eq_some'] at hres
    obtain ⟨r, hr, heq⟩ := hres
    cases heq
    exact refreshShape_wf _ _ _ _ _ _ _ r.1 r.2 hmove hr

theorem fetchShape_trace_shape (env : Env) (frameInfo : DXGI_OUTDUPL_FRAME_INFO)
    (monitor : Monitor) (pointer : Pointer) (apiBuffer : Buffer) :
    ∀ e ∈ (fetchShape env frameInfo monitor pointer apiBuffer).1,
      ∃ d size capacity, e = Event.GetFramePointerShape d size capacity := by
  unfold fetchShape
  split
  · split
    · intro e he; cases he
    · intro e he
      simp only [List.mem_singleton] at he
      exact ⟨_, _, _, he⟩
  · intro e he; cases he

theorem decodeShape_color_trace (env : Env) (g_unity : Option Nat) (monitor : Monitor)
    (pointer : Pointer) (apiBuffer : Buffer) :
    (decodeShape env g_unity monitor pointer false false apiBuffer).1 = [] := by
  simp only [decodeShape, Bool.or_self, Bool.false_eq_true, if_false]
  split
  · rfl
  · split <;> rfl

/-- With a colour descriptor at entry, the only external call `UpdateMouse` can make is the
retrieval of the shape: no staging texture is created, copied to or mapped. -/
theorem UpdateMouse_color_trace (env : Env) (g_unity : Option Nat) (g_mouseMonitor : Int)
    (frameInfo : DXGI_OUTDUPL_FRAME_INFO) (monitor : Monitor)
    (htype : monitor.pointer.shapeInfo.Type_ = DXGI_OUTDUPL_POINTER_SHAPE_TYPE_COLOR) :
    ∀ e ∈ (UpdateMouse env g_unity g_mouseMonitor frameInfo monitor).1,
      ∃ d size capacity, e = Event.GetFramePointerShape d size capacity := by
  have hmono : ((movePointer frameInfo monitor.pointer).shapeInfo.Type_ ==
      DXGI_OUTDUPL_POINTER_SHAPE_TYPE_MONOCHROME) = false := by
    show (monitor.pointer.shapeInfo.Type_ == DXGI_OUTDUPL_POINTER_SHAPE_TYPE_MONOCHROME) = false
    rw [htype]; decide
  have hmask : ((movePointer frameInfo monitor.pointer).shapeInfo.Type_ ==
      DXGI_OUTDUPL_POINTER_SHAPE_TYPE_MASKED_COLOR) = false := by
    show (monitor.pointer.shapeInfo.Type_ == DXGI_OUTDUPL_POINTER_SHAPE_TYPE_MASKED_COLOR) = false
    rw [htype]; decide
  unfold UpdateMouse
  simp only [hmono, hmask]
  split
  · intro e he; cases he
  · unfold refreshShape
    split
    · intro e he; cases he
    · rename_i apiBuffer hbuf
      have hf := fetchShape_trace_shape env frameInfo monitor
        (growApi env frameInfo (movePointer frameInfo monitor.pointer)) apiBuffer
      split
      · rename_i tr heq
        rw [heq] at hf; exact hf
      · rename_i tr raw info heq
        rw [heq] at hf
        simp only [decodeShape_color_trace, List.append_nil]
        exact hf

/-- The colour loop by itself (lines 276-284), for buffers that hold the image: decoded word
`i` equals raw word `i` for every `i < w * h`, the first `w * h * 4` bytes of the decoded
buffer are the first `w * h * 4` bytes of the raw buffer, the branch makes no call on the
device and does not depend on the mapped desktop surface, and an `UpdateMouse` that finds a
colour descriptor at entry makes no external call but the retrieval of the shape. -/
theorem decodeColor_copies_raw (w h : Nat) (apiBuffer output32 : Buffer)
    (hout : 4 * (w * h) ≤ output32.length) (houtl : output32.length < 4294967296)
    (hapi : 4 * (w * h) ≤ apiBuffer.length) (hapib : isBytes apiBuffer) :
    ∃ out, decodeColor w h apiBuffer output32 = some out ∧
      (∀ i, i < w * h →
        ∃ v, readUINT apiBuffer (i : Int) = some v ∧ readUINT out (i : Int) = some v) ∧
      out.take (w * h * 4) = apiBuffer.take (w * h * 4) ∧
      (∀ (env : Env) (g_unity : Option Nat) (monitor : Monitor) (pointer : Pointer)
          (bits : Buffer) (pitch : Int),
        (decodeShape env g_unity monitor pointer false false apiBuffer).1 = [] ∧
        decodeShape { env with pBits := bits, Pitch := pitch } g_unity monitor pointer false false
            apiBuffer =
          decodeShape env g_unity monitor pointer false false apiBuffer) ∧
      (∀ (env : Env) (g_unity : Option Nat) (g_mouseMonitor : Int)
          (frameInfo : DXGI_OUTDUPL_FRAME_INFO) (monitor : Monitor),
        monitor.pointer.shapeInfo.Type_ = DXGI_OUTDUPL_POINTER_SHAPE_TYPE_COLOR →
        ∀ e ∈ (UpdateMouse env g_unity g_mouseMonitor frameInfo monitor).1,
          ∃ d size capacity, e = Event.GetFramePointerShape d size capacity) := by
  obtain ⟨out, hdec, hlen, hlo, -⟩ := decodeColor_bytes w h apiBuffer output32 hout houtl hapi hapib
  refine ⟨out, hdec, ?_, ?_, ?_, ?_⟩
  · intro i hi
    have hr : 4 * i + 3 < apiBuffer.length := by omega
    refine ⟨_, readUINT_eq_wordAt hr, ?_⟩
    rw [← readUINT_eq_wordAt hr, readUINT_natCast, readUINT_natCast, hlo _ (by omega),
      hlo _ (by omega), hlo _ (by omega), hlo _ (by omega)]
  · apply List.ext_getElem?
    intro k
    by_cases hk : k < w * h * 4
    · rw [List.getElem?_take_of_lt hk, List.getElem?_take_of_lt hk, hlo k (by omega)]
    · rw [List.getElem?_take_eq_none (by omega), List.getElem?_take_eq_none (by omega)]
  · intro env g_unity monitor pointer bits pitch
    exact ⟨decodeShape_color_trace _ _ _ _ _, rfl⟩
  · intro env g_unity g_mouseMonitor frameInfo monitor htype
    exact UpdateMouse_color_trace env g_unity g_mouseMonitor frameInfo monitor htype


/-- C9 (what the code does): when the shape changes from monochrome to colour, the tick
that retrieves the colour descriptor (2 x 2, raw bytes 0 to 15) still decodes with the
monochrome branch chosen from the previous type and with the height halved: a staging
texture of 2 x 1 is created and mapped, the first 8 decoded bytes are desktop alpha under
the raw bytes read as masks, the next 8 are left as they were, and so the first
2 x 2 x 4 = 16 decoded bytes are not the first 16 raw bytes, while the descriptor stored is
colour. -/
theorem C9_stale_type_composites_color_shape :
    (OnRenderEvent colorShapeFrame (sampleGlobals [monochromeShapeMonitor]) 0).1 =
      [Event.AcquireNextFrame 5 10 0, Event.CopyResource 9, Event.GetFramePointerShape 5 16 16,
        Event.CreateTexture2D 2 1 0, Event.CopySubresourceRegion (some 9),
        Event.QueryInterface 0, Event.TextureRelease, Event.Map 0, Event.Unmap 0,
        Event.SurfaceRelease, Event.ResourceRelease, Event.ReleaseFrame 5] ∧
    (OnRenderEvent colorShapeFrame (sampleGlobals [monochromeShapeMonitor]) 0).2.map
        (fun g1 => g1.g_monitors.map (fun m => m.pointer.shapeInfo)) =
      some [{ Type_ := DXGI_OUTDUPL_POINTER_SHAPE_TYPE_COLOR, Width := 2, Height := 2,
              Pitch := 8 }] ∧
    (OnRenderEvent colorShapeFrame (sampleGlobals [monochromeShapeMonitor]) 0).2.map
        (fun g1 => g1.g_monitors.map (fun m => m.pointer.apiBuffer)) =
      some [some (List.range 16)] ∧
    (OnRenderEvent colorShapeFrame (sampleGlobals [monochromeShapeMonitor]) 0).2.map
        (fun g1 => g1.g_monitors.map (fun m => m.pointer.bgra32Buffer)) =
      some [some ([0, 0, 0, 7, 0, 0, 0, 7] ++ List.replicate 24 0)] ∧
    ([0, 0, 0, 7, 0, 0, 0, 7] ++ List.replicate 24 0 : Buffer).take (2 * 2 * 4) ≠
      (List.range 16).take (2 * 2 * 4) ∧
    (OnRenderEvent colorShapeFrame (sampleGlobals [monochromeShapeMonitor]) 0).2.map
        (fun g1 => GetPointerShapeHeight g1 0) = some 2 := by
  decide

end UDD
